import Mathlib

/-!
# Verification of the Unity → O3DE converter core

A shallow embedding, in Lean 4, of the algorithmic core of the
`Unity_to_O3DE_Converter` repository:

* `integrated_asset_processor.py` — coordinate conversion, PhysX component
  synthesis (collider fan-out, rigid-body constraint translation), hierarchy
  building, the anchored-document parse loop, and the GUID asset index;
* `unity_scene_converter_gui.py` — prefab reference resolution with
  name-fallback matching and the missing-reference report.

Python floats are modelled as rationals (`ℚ`): every operation the embedded
code performs on them (negation, component permutation, comparison against the
fixed tolerance `0.0001`) is exact, so the rational model is faithful for the
properties proved here.  Python dicts are modelled as insertion-ordered
association lists, Python's `random.randint` as an oracle stream `ℕ → ℕ`, and
the transcendental quaternion-to-Euler helper as an explicit function
parameter (it is external math-library code whose values none of the proved
properties depend on).
-/

namespace U2O

/-! ## Part 1 — definitions

### Decimal rendering of naturals (Python `str(int)` / f-string) -/

/-- Little-endian decimal digits of a natural number. -/
def natDigits (n : ℕ) : List ℕ :=
  if n < 10 then [n] else (n % 10) :: natDigits (n / 10)
termination_by n
decreasing_by exact Nat.div_lt_self (by omega) (by omega)

/-- Evaluation of a little-endian digit list back to a natural number. -/
def fromDigits : List ℕ → ℕ
  | [] => 0
  | d :: ds => d + 10 * fromDigits ds

/-- Rendering of a single decimal digit. -/
def digitChar : ℕ → Char
  | 0 => '0' | 1 => '1' | 2 => '2' | 3 => '3' | 4 => '4'
  | 5 => '5' | 6 => '6' | 7 => '7' | 8 => '8' | _ => '9'

/-- Decimal rendering of a natural number (Python `str(n)` for `n ≥ 0`). -/
def natRepr (n : ℕ) : String :=
  ⟨((natDigits n).reverse.map digitChar)⟩

/-- `f"Entity_[{n}]"` — the serialized entity identifier format. -/
def mkEntityId (n : ℕ) : String := "Entity_[" ++ natRepr n ++ "]"

/-- `f"Instance_[{n}]"` — the serialized instance identifier format. -/
def mkInstanceId (n : ℕ) : String := "Instance_[" ++ natRepr n ++ "]"

/-! ### Insertion-ordered dictionaries (Python `dict`)

A Python `dict` is modelled as an association list with unique keys kept in
insertion order.  `dictSet` replaces in place when the key exists and appends
otherwise; `dictErase` models `dict.pop`. -/

/-- `d.get(k)` / `d[k]`. -/
def dictLookup {α : Type} : List (String × α) → String → Option α
  | [], _ => none
  | (k', v) :: rest, k => if k' = k then some v else dictLookup rest k

/-- `k in d`. -/
def dictContains {α : Type} (m : List (String × α)) (k : String) : Bool :=
  (dictLookup m k).isSome

/-- `d[k] = v`. -/
def dictSet {α : Type} (m : List (String × α)) (k : String) (v : α) : List (String × α) :=
  if dictContains m k then m.map (fun e => if e.1 = k then (k, v) else e)
  else m ++ [(k, v)]

/-- `d.pop(k)` (the removal part). -/
def dictErase {α : Type} (m : List (String × α)) (k : String) : List (String × α) :=
  m.filter (fun e => e.1 ≠ k)

/-- `list(d.keys())`. -/
def dictKeys {α : Type} (m : List (String × α)) : List String := m.map Prod.fst

/-- Python truthiness of an optional string (`None` and `''` are falsy). -/
def optTruthy : Option String → Bool
  | some s => !s.isEmpty
  | none => false

/-! ## Shared geometry — `Transform`, coordinate conversion

The dataclass `Transform` (with `is_uniform_scale`) and the method
`_convert_to_o3de_coordinates` / `convert_to_o3de_coordinates` appear with
identical bodies in all three pipeline files; they are embedded once. -/

structure Vec3 where
  x : ℚ
  y : ℚ
  z : ℚ
deriving DecidableEq

structure Quat where
  x : ℚ
  y : ℚ
  z : ℚ
  w : ℚ
deriving DecidableEq

/-- `Transform` dataclass: Unity transform data. -/
structure Transform where
  position : Vec3
  rotation : Quat
  scale : Vec3
deriving DecidableEq

/-- Default transform: position 0, identity quaternion, scale 1. -/
def Transform.default : Transform :=
  ⟨⟨0, 0, 0⟩, ⟨0, 0, 0, 1⟩, ⟨1, 1, 1⟩⟩

/-- `Transform.is_uniform_scale(tolerance=0.0001)`:
`abs(scale[0]-scale[1]) < tolerance and abs(scale[1]-scale[2]) < tolerance`. -/
def Transform.isUniformScale (t : Transform) (tolerance : ℚ) : Bool :=
  decide (|t.scale.x - t.scale.y| < tolerance) &&
  decide (|t.scale.y - t.scale.z| < tolerance)

/-- `_convert_to_o3de_coordinates` / `convert_to_o3de_coordinates`:
position `(x,y,z) → (-x,z,y)`, rotation `(qx,qy,qz,qw) → (-qx,qz,qy,qw)`,
scale `(sx,sy,sz) → (sx,sz,sy)`; the second component is
`not converted.is_uniform_scale()`. -/
def convertToO3DECoordinates (t : Transform) : Transform × Bool :=
  let o3dePos : Vec3 := ⟨-t.position.x, t.position.z, t.position.y⟩
  let o3deRot : Quat := ⟨-t.rotation.x, t.rotation.z, t.rotation.y, t.rotation.w⟩
  let o3deScale : Vec3 := ⟨t.scale.x, t.scale.z, t.scale.y⟩
  let converted : Transform := ⟨o3dePos, o3deRot, o3deScale⟩
  (converted, ! converted.isUniformScale (1/10000))

/-! ## Rigid-body data and the constraint bitmask translation -/

/-- The `rigidbody_data` dict assembled in `_build_hierarchy` and re-read with
defaults in `_create_physx_components`. -/
structure RigidbodyData where
  mass : ℚ
  drag : ℚ
  angularDrag : ℚ
  useGravity : Bool
  isKinematic : Bool
  constraints : ℕ
deriving DecidableEq

/-- Defaults used by `rb.get(...)` when `rigidbody_data` is `None`
(`rb = go.rigidbody_data or {}`). -/
def RigidbodyData.default : RigidbodyData :=
  ⟨1, 0, 5/100, true, false, 0⟩

/-- The `config` dict of `EditorRigidBodyComponent`.  A `false` lock flag (and
`kinematic = false`) models the corresponding key being absent from the
Python dict; the code only ever writes `True` into these keys. -/
structure RigidBodyCfg where
  mass : ℚ
  linearDamping : ℚ
  angularDamping : ℚ
  gravityEnabled : Bool
  kinematic : Bool
  lockLinearX : Bool
  lockLinearY : Bool
  lockLinearZ : Bool
  lockAngularX : Bool
  lockAngularY : Bool
  lockAngularZ : Bool
deriving DecidableEq

/-- `_create_physx_components` lines 1124-1144: build the rigid-body
configuration, including the Unity→O3DE constraint bit remap
(`PosX=2 PosY=4 PosZ=8 RotX=16 RotY=32 RotZ=64`, with Unity Y ↔ O3DE Z). -/
def mkRigidBodyCfg (rb : RigidbodyData) : RigidBodyCfg :=
  let base : RigidBodyCfg :=
    { mass := rb.mass
      linearDamping := rb.drag
      angularDamping := rb.angularDrag
      gravityEnabled := rb.useGravity
      kinematic := rb.isKinematic
      lockLinearX := false, lockLinearY := false, lockLinearZ := false
      lockAngularX := false, lockAngularY := false, lockAngularZ := false }
  let n := rb.constraints
  if n ≠ 0 then
    { base with
      lockLinearX := decide (n &&& 2 ≠ 0)
      lockLinearZ := decide (n &&& 4 ≠ 0)       -- Unity Y → O3DE Z
      lockLinearY := decide (n &&& 8 ≠ 0)       -- Unity Z → O3DE Y
      lockAngularX := decide (n &&& 16 ≠ 0)
      lockAngularZ := decide (n &&& 32 ≠ 0)     -- Unity Y → O3DE Z
      lockAngularY := decide (n &&& 64 ≠ 0) }   -- Unity Z → O3DE Y
  else base

/-! ### GameObject and collider records (`integrated_asset_processor.py`) -/

/-- Collider type tags recognized by the parser
(`BoxCollider` / `SphereCollider` / `CapsuleCollider` / `MeshCollider`). -/
inductive ColliderKind where
  | box
  | sphere
  | capsule
  | mesh
deriving DecidableEq

/-- One entry of `GameObject.colliders`, as produced by `_parse_collider_data`
(fields irrelevant to a given kind keep their parse-time defaults). -/
structure Collider where
  kind : ColliderKind
  isTrigger : Bool
  center : Vec3
  size : Vec3        -- BoxCollider `m_Size` (default (1,1,1))
  radius : ℚ         -- Sphere/Capsule `m_Radius` (default 0.5)
  height : ℚ         -- Capsule `m_Height` (default 2.0)
  direction : ℤ      -- Capsule `m_Direction` (default 1)
  meshGuid : String  -- MeshCollider `m_Mesh.guid` (default ``""``)
  convex : Bool      -- MeshCollider `m_Convex`
deriving DecidableEq

/-- The `GameObject` dataclass of `integrated_asset_processor.py`. -/
structure GameObject where
  fileId : String
  name : String
  transform : Transform
  parentId : Option String
  childrenIds : List String
  meshGuid : Option String
  materialGuids : List String
  hasRigidbody : Bool
  rigidbodyData : Option RigidbodyData
  colliders : List Collider
  isPrefabInstance : Bool
  prefabSourceGuid : Option String
deriving DecidableEq

/-- A `GameObject` with only the three positional fields set (the dataclass
field defaults). -/
def GameObject.blank (fileId name : String) (t : Transform) : GameObject :=
  ⟨fileId, name, t, none, [], none, [], false, none, [], false, none⟩

/-! ### O3DE output components and entities

The JSON component dicts are modelled as an inductive type: the constructor
plays the role of the dict key / `$type` discriminator, and the first field is
always the randomly generated `Id`.  The constant
`MaterialSlots` block of collider configurations carries no information and is
not modelled. -/

/-- The optional `Transform Data` block of a `TransformComponent`. -/
structure TransformData where
  translate : Option (List ℚ)
  rotate : Option (List ℚ)
  scale : Option ℚ
deriving DecidableEq

/-- `ColliderConfiguration` of a collider component: `Trigger` (false models
an absent key) and the optional `Position` offset. -/
structure ColliderCfg where
  trigger : Bool
  position : Option (List ℚ)
deriving DecidableEq

/-- One entry of the `ShapeConfigs` array of an `EditorShapeColliderComponent`.
`emptyCfg` is the `{}` produced when the collider type matches no branch. -/
inductive ShapeCfg where
  | boxCfg (dims : List ℚ)
  | sphereCfg (radius : ℚ)
  | capsuleCfg (height radius : ℚ)
  | emptyCfg
deriving DecidableEq

/-- O3DE editor components emitted by the converter. -/
inductive Component where
  | disabledComposition (id : ℕ)
  | entityIcon (id : ℕ)
  | entitySort (id : ℕ) (childOrder : List String)
  | inspector (id : ℕ)
  | lockComp (id : ℕ)
  | onlyEntity (id : ℕ) (isEditorOnly : Bool)
  | pendingComposition (id : ℕ)
  | prefabComp (id : ℕ)
  | visibility (id : ℕ)
  | transformComp (id : ℕ) (parentEntity : String) (data : Option TransformData)
  | nonUniformScale (id : ℕ) (scale : List ℚ)
  | meshComp (id : ℕ) (assetHint : String)
  | materialComp (id : ℕ) (materials : List (ℕ × String))
  | boxShape (id : ℕ) (dims : List ℚ) (offset : Option (List ℚ))
  | sphereShape (id : ℕ) (radius : ℚ) (offset : Option (List ℚ))
  | capsuleShape (id : ℕ) (height radius : ℚ) (offset : Option (List ℚ))
  | shapeCollider (id : ℕ) (cfg : ColliderCfg) (shapeCfgs : List ShapeCfg)
  | meshCollider (id : ℕ) (cfg : ColliderCfg) (physicsAssetHint : Option String)
  | rigidBody (id : ℕ) (cfg : RigidBodyCfg)
  | staticRigidBody (id : ℕ)
deriving DecidableEq

/-- An O3DE entity body: `{"Id": ..., "Name": ..., "Components": {...}}`,
components kept in dict insertion order. -/
structure Entity where
  id : String
  name : String
  components : List Component
deriving DecidableEq

/-! ### Identifier generation

`_generate_component_id` draws `random.randint(10^15, 10^16 - 1)`; the random
source is modelled as an oracle stream `rng : ℕ → ℕ` together with a stream
index in the generator state (any stream whose values lie in the `randint`
range is a possible execution).  `_generate_entity_id` increments
`entity_id_counter` and uses the new value; the `Instance_[...]` identifiers
use the current value and then increment. -/

/-- Generator state: `self.entity_id_counter` plus the random-stream index. -/
structure GenState where
  counter : ℕ
  rix : ℕ
deriving DecidableEq

/-- `_generate_component_id`: one `random.randint` draw. -/
def genComponentId (rng : ℕ → ℕ) (s : GenState) : ℕ × GenState :=
  (rng s.rix, { s with rix := s.rix + 1 })

/-- `_generate_entity_id`: `counter += 1; return f"Entity_[{counter}]"`. -/
def genEntityId (s : GenState) : String × GenState :=
  (mkEntityId (s.counter + 1), { s with counter := s.counter + 1 })

/-- `f"Instance_[{counter}]"; counter += 1` (inline in
`_create_entity_recursive`). -/
def genInstanceId (s : GenState) : String × GenState :=
  (mkInstanceId s.counter, { s with counter := s.counter + 1 })

/-! ### PhysX component synthesis (`_create_physx_components` and helpers) -/

/-- `_make_bare_entity`: a minimal child entity holding a transform-parent
link plus the editor boilerplate components, in source order. -/
def makeBareEntity (rng : ℕ → ℕ) (entityId name parentEntityId : String) (s₀ : GenState) :
    Entity × GenState :=
  let (i₁, s₁) := genComponentId rng s₀
  let (i₂, s₂) := genComponentId rng s₁
  let (i₃, s₃) := genComponentId rng s₂
  let (i₄, s₄) := genComponentId rng s₃
  let (i₅, s₅) := genComponentId rng s₄
  let (i₆, s₆) := genComponentId rng s₅
  let (i₇, s₇) := genComponentId rng s₆
  let (i₈, s₈) := genComponentId rng s₇
  (⟨entityId, name,
    [Component.transformComp i₁ parentEntityId none,
     Component.disabledComposition i₂,
     Component.entityIcon i₃,
     Component.inspector i₄,
     Component.lockComp i₅,
     Component.onlyEntity i₆ false,
     Component.pendingComposition i₇,
     Component.visibility i₈]⟩, s₈)

/-- `offset = [-cx, cz, cy]`: collider center under the Unity→O3DE remap. -/
def colliderOffset (c : Collider) : List ℚ :=
  [-c.center.x, c.center.z, c.center.y]

/-- `_add_shape_collider`: the per-kind shape component plus the paired
`EditorShapeColliderComponent`, appended to `comps`. -/
def addShapeCollider (rng : ℕ → ℕ) (c : Collider) (offset : List ℚ)
    (comps : List Component) (s₀ : GenState) : List Component × GenState :=
  let hasOffset := offset.any (fun v => decide (|v| > 1/10000))
  let offOpt : Option (List ℚ) := if hasOffset then some offset else none
  let r :=
    match c.kind with
    | ColliderKind.box =>
        let dims := [c.size.x, c.size.z, c.size.y]   -- swap Y/Z
        let (i, s) := genComponentId rng s₀
        (comps ++ [Component.boxShape i dims offOpt], ShapeCfg.boxCfg dims, s)
    | ColliderKind.sphere =>
        let (i, s) := genComponentId rng s₀
        (comps ++ [Component.sphereShape i c.radius offOpt], ShapeCfg.sphereCfg c.radius, s)
    | ColliderKind.capsule =>
        let (i, s) := genComponentId rng s₀
        (comps ++ [Component.capsuleShape i c.height c.radius offOpt],
         ShapeCfg.capsuleCfg c.height c.radius, s)
    | ColliderKind.mesh =>
        -- unreachable here: `_create_physx_components` routes MeshCollider to
        -- `_add_mesh_collider`; mirrors the fall-through (empty shape_config)
        (comps, ShapeCfg.emptyCfg, s₀)
  let (i₂, s₂) := genComponentId rng r.2.2
  (r.1 ++ [Component.shapeCollider i₂ ⟨c.isTrigger, offOpt⟩ [r.2.1]], s₂)

/-- The `.pxmesh` asset-hint resolution of `_add_mesh_collider`: collider mesh
first, render mesh second, with the `.azmodel` → `.pxmesh` suffix swap. -/
def meshColliderHint (mm : String → Option String) (go : GameObject) (c : Collider) :
    Option String :=
  if c.meshGuid ≠ "" ∧ (mm c.meshGuid).isSome then
    (mm c.meshGuid).map (fun h => h.replace ".azmodel" ".pxmesh")
  else
    match go.meshGuid with
    | some g =>
        if g ≠ "" ∧ (mm g).isSome then (mm g).map (fun h => h.replace ".azmodel" ".pxmesh")
        else none
    | none => none

/-- `_add_mesh_collider`: an `EditorMeshColliderComponent` appended to
`comps`. -/
def addMeshCollider (rng : ℕ → ℕ) (mm : String → Option String)
    (c : Collider) (go : GameObject) (comps : List Component) (s₀ : GenState) :
    List Component × GenState :=
  let (i, s₁) := genComponentId rng s₀
  (comps ++ [Component.meshCollider i ⟨c.isTrigger, none⟩ (meshColliderHint mm go c)], s₁)

/-- The `if col_type == 'MeshCollider': ... else: ...` collider dispatch of
`_create_physx_components`, appending one collider attachment to `comps`. -/
def addColliderFor (rng : ℕ → ℕ) (mm : String → Option String) (go : GameObject)
    (c : Collider) (comps : List Component) (s : GenState) : List Component × GenState :=
  if c.kind = ColliderKind.mesh then addMeshCollider rng mm c go comps s
  else addShapeCollider rng c (colliderOffset c) comps s

/-- The `for idx, collider in enumerate(go.colliders)` loop of
`_create_physx_components`: index 0 targets the primary entity's components,
every later index creates a `{name}_Collider_{idx}` child entity that also
receives an `EditorStaticRigidBodyComponent` (unconditionally). -/
def physxLoop (rng : ℕ → ℕ) (mm : String → Option String) (go : GameObject)
    (primaryName primaryId : String) :
    List Collider → ℕ → List Component → List (String × Entity) → List String → GenState →
    List Component × List (String × Entity) × List String × GenState
  | [], _, comps, dict, cids, s => (comps, dict, cids, s)
  | c :: rest, idx, comps, dict, cids, s =>
    if idx = 0 then
      let r := addColliderFor rng mm go c comps s
      physxLoop rng mm go primaryName primaryId rest (idx + 1) r.1 dict cids r.2
    else
      let (childId, s₁) := genEntityId s
      let (child, s₂) :=
        makeBareEntity rng childId (primaryName ++ "_Collider_" ++ natRepr idx) primaryId s₁
      let (srbId, s₃) := genComponentId rng s₂
      let childComps₀ := child.components ++ [Component.staticRigidBody srbId]
      let r := addColliderFor rng mm go c childComps₀ s₃
      let child' : Entity := ⟨child.id, child.name, r.1⟩
      physxLoop rng mm go primaryName primaryId rest (idx + 1) comps
        (dictSet dict childId child') (cids ++ [childId]) r.2

/-- `_create_physx_components`: colliders (with multi-collider fan-out into
child entities), then the rigid-body / static-body component on the primary
entity.  Returns the updated primary entity, the entities dict extended with
the synthetic children, the list of child entity ids, and the generator
state. -/
def createPhysxComponents (rng : ℕ → ℕ) (mm : String → Option String)
    (go : GameObject) (entity : Entity) (entitiesDict : List (String × Entity))
    (s₀ : GenState) : Entity × List (String × Entity) × List String × GenState :=
  if go.colliders.isEmpty ∧ go.hasRigidbody = false then (entity, entitiesDict, [], s₀)
  else
    let r := physxLoop rng mm go go.name entity.id go.colliders 0 entity.components
      entitiesDict [] s₀
    let comps₁ := r.1
    let dict₁ := r.2.1
    let childIds := r.2.2.1
    let s₁ := r.2.2.2
    let r₂ :=
      if go.hasRigidbody then
        let rb := go.rigidbodyData.getD RigidbodyData.default
        let (i, s) := genComponentId rng s₁
        (comps₁ ++ [Component.rigidBody i (mkRigidBodyCfg rb)], s)
      else if go.colliders.isEmpty = false then
        let (i, s) := genComponentId rng s₁
        (comps₁ ++ [Component.staticRigidBody i], s)
      else (comps₁, s₁)
    (⟨entity.id, entity.name, r₂.1⟩, dict₁, childIds, r₂.2)

/-! ### Observables over entities -/

/-- Whether a component is a collider attachment
(`EditorShapeColliderComponent` or `EditorMeshColliderComponent`). -/
def Component.isColliderAttachment : Component → Bool
  | Component.shapeCollider _ _ _ => true
  | Component.meshCollider _ _ _ => true
  | _ => false

/-- The collider attachments of an entity, in order. -/
def Entity.colliderComps (e : Entity) : List Component :=
  e.components.filter Component.isColliderAttachment

/-- Number of collider attachments carried by an entity. -/
def Entity.colliderCount (e : Entity) : ℕ := e.colliderComps.length

/-- Whether a component is the synthesized static-body marker. -/
def Component.isStaticRB : Component → Bool
  | Component.staticRigidBody _ => true
  | _ => false

/-- Number of `EditorStaticRigidBodyComponent` markers on an entity. -/
def Entity.staticRBCount (e : Entity) : ℕ :=
  (e.components.filter Component.isStaticRB).length

/-- The `Parent Entity` value of the entity's first `TransformComponent`. -/
def Entity.parentEntityOf (e : Entity) : Option String :=
  e.components.findSome? (fun c => match c with
    | Component.transformComp _ p _ => some p
    | _ => none)

/-- Erase the freshly generated identifiers from a component: the random
component `Id`, and every counter-derived entity identifier (the transform
parent reference and the child-order entries, which are replaced by
placeholders that keep only the count). -/
def eraseComp : Component → Component
  | Component.disabledComposition _ => Component.disabledComposition 0
  | Component.entityIcon _ => Component.entityIcon 0
  | Component.entitySort _ order => Component.entitySort 0 (order.map (fun _ => ""))
  | Component.inspector _ => Component.inspector 0
  | Component.lockComp _ => Component.lockComp 0
  | Component.onlyEntity _ b => Component.onlyEntity 0 b
  | Component.pendingComposition _ => Component.pendingComposition 0
  | Component.prefabComp _ => Component.prefabComp 0
  | Component.visibility _ => Component.visibility 0
  | Component.transformComp _ _ d => Component.transformComp 0 "" d
  | Component.nonUniformScale _ sc => Component.nonUniformScale 0 sc
  | Component.meshComp _ h => Component.meshComp 0 h
  | Component.materialComp _ ms => Component.materialComp 0 ms
  | Component.boxShape _ d o => Component.boxShape 0 d o
  | Component.sphereShape _ r o => Component.sphereShape 0 r o
  | Component.capsuleShape _ h r o => Component.capsuleShape 0 h r o
  | Component.shapeCollider _ cfg sc => Component.shapeCollider 0 cfg sc
  | Component.meshCollider _ cfg h => Component.meshCollider 0 cfg h
  | Component.rigidBody _ cfg => Component.rigidBody 0 cfg
  | Component.staticRigidBody _ => Component.staticRigidBody 0

/-- Erase the freshly generated identifiers from an entity body. -/
def eraseEntity (e : Entity) : Entity :=
  ⟨"", e.name, e.components.map eraseComp⟩

/-- The randomly generated `Id` field of a component. -/
def componentId : Component → ℕ
  | Component.disabledComposition i => i
  | Component.entityIcon i => i
  | Component.entitySort i _ => i
  | Component.inspector i => i
  | Component.lockComp i => i
  | Component.onlyEntity i _ => i
  | Component.pendingComposition i => i
  | Component.prefabComp i => i
  | Component.visibility i => i
  | Component.transformComp i _ _ => i
  | Component.nonUniformScale i _ => i
  | Component.meshComp i _ => i
  | Component.materialComp i _ => i
  | Component.boxShape i _ _ => i
  | Component.sphereShape i _ _ => i
  | Component.capsuleShape i _ _ _ => i
  | Component.shapeCollider i _ _ => i
  | Component.meshCollider i _ _ => i
  | Component.rigidBody i _ => i
  | Component.staticRigidBody i => i

/-- The shape configuration the code attaches for a given collider record
(used to state which collider an attachment came from). -/
def attachedShapeCfg (c : Collider) : ShapeCfg :=
  match c.kind with
  | ColliderKind.box => ShapeCfg.boxCfg [c.size.x, c.size.z, c.size.y]
  | ColliderKind.sphere => ShapeCfg.sphereCfg c.radius
  | ColliderKind.capsule => ShapeCfg.capsuleCfg c.height c.radius
  | ColliderKind.mesh => ShapeCfg.emptyCfg

/-- The optional `Position` offset recorded on the shape-collider
configuration (`has_offset = any(abs(v) > 0.0001 for v in offset)`). -/
def colliderOffsetOpt (c : Collider) : Option (List ℚ) :=
  if (colliderOffset c).any (fun v => decide (|v| > 1/10000)) then some (colliderOffset c)
  else none

/-- The id-erased collider attachment produced for a collider record. -/
def expectedAttachment (mm : String → Option String) (go : GameObject) (c : Collider) :
    Component :=
  if c.kind = ColliderKind.mesh then
    Component.meshCollider 0 ⟨c.isTrigger, none⟩ (meshColliderHint mm go c)
  else
    Component.shapeCollider 0 ⟨c.isTrigger, colliderOffsetOpt c⟩ [attachedShapeCfg c]

/-- Whether a component is a `TransformComponent`. -/
def Component.isTransformComp : Component → Bool
  | Component.transformComp _ _ _ => true
  | _ => false

/-! ### Concrete inputs used by counterexamples and witnesses -/

/-- A transform whose remapped scale is `(1, 1.00009, 1.00018)`: the x/z pair
differs by `0.00018 ≥ 0.0001` while both adjacent pairs differ by only
`0.00009 < 0.0001`. -/
def cexTransformC4 : Transform :=
  ⟨⟨0, 0, 0⟩, ⟨0, 0, 0, 1⟩, ⟨1, 1 + 18/100000, 1 + 9/100000⟩⟩

/-- A rigid-body record whose constraint bitmask has only the Unity
"lock Y translation" bit (value 4) set. -/
def cexRb5 : RigidbodyData :=
  ⟨1, 0, 5/100, true, false, 4⟩

/-- A box collider at the origin with default size, no trigger. -/
def simpleBoxCollider : Collider :=
  ⟨ColliderKind.box, false, ⟨0, 0, 0⟩, ⟨1, 1, 1⟩, 1/2, 2, 1, "", false⟩

/-- A GameObject with a rigidbody and two box colliders (for the C3
counterexample: its synthetic collider child still gets the static marker). -/
def cexGoC3 : GameObject :=
  { GameObject.blank "100" "Crate" Transform.default with
      hasRigidbody := true
      rigidbodyData := some ⟨2, 0, 5/100, true, false, 0⟩
      colliders := [simpleBoxCollider, simpleBoxCollider] }

/-- A GameObject with three box colliders and no rigidbody (C2 witness). -/
def cexGoC2 : GameObject :=
  { GameObject.blank "200" "Props" Transform.default with
      colliders := [simpleBoxCollider, simpleBoxCollider, simpleBoxCollider] }

/-- A primary entity shell as built by `_create_entity_recursive` before the
PhysX step (boilerplate components omitted — the physx step only appends). -/
def baseEntity : Entity :=
  ⟨"Entity_[1000001]", "Crate", []⟩

/-- Conclusion of claim C2 about `result = _create_physx_components(...)` run
with an empty entities dict: the children dict lists exactly the returned
child ids; there are N-1 children; the i-th child is named
`{parentName}_Collider_{i+1}`, holds exactly one collider attachment and a
transform-parent link to the primary entity; the primary entity keeps its
identity and gains exactly the attachment of the first collider. -/
def C2Spec (mm : String → Option String) (go : GameObject) (entity : Entity)
    (result : Entity × List (String × Entity) × List String × GenState)
    (firstCollider : Collider) : Prop :=
  result.2.1.map Prod.fst = result.2.2.1 ∧
  result.2.1.length = go.colliders.length - 1 ∧
  (∀ i (hi : i < result.2.1.length),
    (result.2.1.get ⟨i, hi⟩).2.name = go.name ++ "_Collider_" ++ natRepr (i + 1) ∧
    (result.2.1.get ⟨i, hi⟩).2.colliderCount = 1 ∧
    (result.2.1.get ⟨i, hi⟩).2.parentEntityOf = some entity.id ∧
    (result.2.1.get ⟨i, hi⟩).1 = (result.2.1.get ⟨i, hi⟩).2.id) ∧
  result.1.id = entity.id ∧ result.1.name = entity.name ∧
  (result.1.colliderComps).map eraseComp
    = (entity.colliderComps).map eraseComp ++ [expectedAttachment mm go firstCollider]

/-- Conclusion of the amended claim C3 about
`result = _create_physx_components(...)` run with an empty entities dict: the
primary entity gains the static-body marker exactly when no rigidbody was
declared, while every synthetic collider child carries the marker
unconditionally. -/
def C3Spec (go : GameObject) (entity : Entity)
    (result : Entity × List (String × Entity) × List String × GenState) : Prop :=
  result.1.staticRBCount = entity.staticRBCount + (if go.hasRigidbody then 0 else 1) ∧
  ∀ kv ∈ result.2.1, kv.2.staticRBCount = 1

/-- A sample random stream: pairwise distinct values inside the
`randint(10^15, 10^16 - 1)` range, so it is a possible sequence of
`_generate_component_id` results. -/
def rngDistinct : ℕ → ℕ := fun i => 1000000000000000 + i

/-- A constant random stream: every value equals `5 * 10^15`, also inside the
`randint` range (`randint` draws are independent, so repeats are possible). -/
def rngConst : ℕ → ℕ := fun _ => 5000000000000000

/-! ### Hierarchy building (`_build_hierarchy`, lines 634-660)

The cited pass has two phases: (1) resolve parent/child transform anchors to
GameObject ids through `transform_map`; (2) walk the map in insertion order
making the links "bidirectional" — every declared child's `parent_id` is
overwritten with the declaring node, then the node is appended to its (current)
parent's children list when missing.  The later component-assignment loop of
the same function does not touch the parent/child links and is modelled
separately by the parse layer. -/

/-- Phase 1, applied to one `GameObject` (pure: only this entry mutates). -/
def resolveLinks (tmap : List (String × String)) (go : GameObject) : GameObject :=
  let go₁ :=
    match go.parentId with
    | some p =>
        if p ≠ "" ∧ (dictLookup tmap p).isSome then
          { go with parentId := dictLookup tmap p }
        else if p = "0" then { go with parentId := none }
        else go
    | none => go
  { go₁ with childrenIds := go.childrenIds.filterMap (fun c => dictLookup tmap c) }

/-- `game_objects[child_id].parent_id = file_id` for one declared child. -/
def forwardSetParent (fileId : String) (m : List (String × GameObject)) (childId : String) :
    List (String × GameObject) :=
  match dictLookup m childId with
  | some cgo => dictSet m childId { cgo with parentId := some fileId }
  | none => m

/-- The forward half of phase 2: overwrite every declared child's parent. -/
def forwardPass (fileId : String) (children : List String)
    (m : List (String × GameObject)) : List (String × GameObject) :=
  children.foldl (forwardSetParent fileId) m

/-- The reverse half of phase 2: append `fileId` to its (current) parent's
children list when absent. -/
def backwardEnsureChild (fileId : String) (m : List (String × GameObject)) :
    List (String × GameObject) :=
  match dictLookup m fileId with
  | none => m
  | some go =>
    match go.parentId with
    | some p =>
        if p ≠ "" then
          match dictLookup m p with
          | some pgo =>
              if fileId ∈ pgo.childrenIds then m
              else dictSet m p { pgo with childrenIds := pgo.childrenIds ++ [fileId] }
          | none => m
        else m
    | none => m

/-- Phase 2: one step of the `for file_id, go in game_objects.items()` loop. -/
def bidirStep (st : List (String × GameObject)) (k : String) :
    List (String × GameObject) :=
  match dictLookup st k with
  | none => st
  | some go => backwardEnsureChild k (forwardPass k go.childrenIds st)

/-- Phase 2 over the whole map, in insertion order. -/
def ensureBidirectional (m : List (String × GameObject)) : List (String × GameObject) :=
  (m.map Prod.fst).foldl bidirStep m

/-- `_build_hierarchy` (the parent/child link part, lines 634-660). -/
def buildHierarchyLinks (tmap : List (String × String))
    (m : List (String × GameObject)) : List (String × GameObject) :=
  ensureBidirectional (m.map (fun e => (e.1, resolveLinks tmap e.2)))

/-- Invariant threaded through the phase-2 fold: every node whose parent
field names an existing key already appears in that parent's children list,
or has not yet been visited (its key is in `rem`). -/
def hierInv (rem : List String) (st : List (String × GameObject)) : Prop :=
  ∀ k go p, dictLookup st k = some go → go.parentId = some p → p ≠ "" →
    (dictLookup st p).isSome →
    (∃ pgo, dictLookup st p = some pgo ∧ k ∈ pgo.childrenIds) ∨ k ∈ rem

/-! #### Concrete hierarchy inputs (C6 counterexample and witness) -/

/-- Node A declares B as its child (through transform anchor `tB`). -/
def goA6 : GameObject :=
  { GameObject.blank "A" "A" Transform.default with childrenIds := ["tB"] }

/-- Node B declares C as its parent, and A as its child. -/
def goB6 : GameObject :=
  { GameObject.blank "B" "B" Transform.default with
      parentId := some "tC", childrenIds := ["tA"] }

/-- Node C declares nothing. -/
def goC6 : GameObject := GameObject.blank "C" "C" Transform.default

/-- A three-node map whose forward and backward links disagree (B declares
parent C, while A declares child B) and whose children declarations form a
cycle between A and B. -/
def cexHierMap : List (String × GameObject) := [("A", goA6), ("B", goB6), ("C", goC6)]

/-- Transform-anchor resolution map for `cexHierMap`. -/
def cexTmap : List (String × String) := [("tA", "A"), ("tB", "B"), ("tC", "C")]

/-- Two isolated nodes: the build pass leaves both as roots. -/
def cexHierMap2 : List (String × GameObject) :=
  [("X", GameObject.blank "X" "X" Transform.default),
   ("Y", GameObject.blank "Y" "Y" Transform.default)]

/-- A parent and a child whose declared parent link survives the pass
(C6 witness input). -/
def c6WitnessMap : List (String × GameObject) :=
  [("P", GameObject.blank "P" "P" Transform.default),
   ("K", { GameObject.blank "K" "K" Transform.default with parentId := some "P" })]

/-! ### Anchored-document parse layer (`_parse_unity_prefab`, lines 443-478)

The file is split by the `--- !u!<tag> &<anchor>` pattern into anchored
blocks.  Each block either decodes (`some doc`, the key/value tree modelled
as a typed document) or raises `yaml.YAMLError` (`none`: the `except` clause
skips the block and parsing continues).  An empty or unrecognized document is
`otherDoc` — also a no-op. -/

/-- A decoded `Transform` document (missing fields default per
`_parse_transform`: position 0, rotation (0,0,0,1), scale 1, father `'0'`). -/
structure TransformDoc where
  gameObjectFileId : Option ℤ
  localPosition : Option Vec3
  localRotation : Option Quat
  localScale : Option Vec3
  fatherFileId : Option ℤ
  childrenFileIds : List ℤ
deriving DecidableEq

/-- A decoded `GameObject` document. -/
structure GameObjectDoc where
  name : Option String
  componentFileIds : List (Option ℤ)
deriving DecidableEq

/-- One numeric `m_Modifications` entry of a `PrefabInstance` document
(`propertyPath`, `float(value)`); the `m_Name` override is carried separately
in `PrefabInstanceDoc.nameOverride`. -/
structure Modification where
  propertyPath : String
  value : ℚ
deriving DecidableEq

/-- A decoded `PrefabInstance` document. -/
structure PrefabInstanceDoc where
  sourceGuid : Option String
  parentFileId : Option ℤ
  nameOverride : Option String
  mods : List Modification
deriving DecidableEq

/-- The component type tags recognized by the elif chain of the block loop. -/
inductive CompTag where
  | meshFilter
  | meshRenderer
  | rigidbodyTag
  | boxCollider
  | sphereCollider
  | capsuleCollider
  | meshCollider
deriving DecidableEq

/-- A stored component document.  Only the owning-GameObject reference is
modelled; the per-type payloads are consumed by the component-assignment
phase (lines 662-701), which is outside the passes the claims quantify
over. -/
structure ComponentDoc where
  gameObjectFileId : Option ℤ
deriving DecidableEq

/-- One decoded anchored document. -/
inductive UDoc where
  | transformDoc (d : TransformDoc)
  | gameObjectDoc (d : GameObjectDoc)
  | prefabInstanceDoc (d : PrefabInstanceDoc)
  | componentDoc (tag : CompTag) (d : ComponentDoc)
  | otherDoc
deriving DecidableEq

/-- The dicts filled by the block loop:
`game_objects`, `components_data`, `transform_to_gameobject`. -/
structure ParseState where
  gameObjects : List (String × GameObject)
  componentsData : List (String × (CompTag × ComponentDoc))
  transformMap : List (String × String)
deriving DecidableEq

/-- The empty parse state. -/
def ParseState.empty : ParseState := ⟨[], [], []⟩

/-- `str(ref.get('fileID', default))`. -/
def fileIdStr (o : Option ℤ) (dflt : String) : String :=
  match o with
  | none => dflt
  | some x => toString x

/-- `_parse_transform`: record the anchor → GameObject mapping, build the
transform with per-field defaults, create or update the GameObject, then
record the father (when not `'0'`) and the non-zero children anchors. -/
def parseTransform (d : TransformDoc) (anchor : String) (st : ParseState) : ParseState :=
  let goFileId := fileIdStr d.gameObjectFileId ""
  if goFileId = "" ∨ goFileId = "0" then st
  else
    let tmap := dictSet st.transformMap anchor goFileId
    let t : Transform := ⟨d.localPosition.getD ⟨0, 0, 0⟩,
                          d.localRotation.getD ⟨0, 0, 0, 1⟩,
                          d.localScale.getD ⟨1, 1, 1⟩⟩
    let gos :=
      match dictLookup st.gameObjects goFileId with
      | none => dictSet st.gameObjects goFileId (GameObject.blank goFileId "" t)
      | some go => dictSet st.gameObjects goFileId { go with transform := t }
    let parentId := fileIdStr d.fatherFileId "0"
    let gos :=
      if parentId ≠ "0" then
        match dictLookup gos goFileId with
        | some go => dictSet gos goFileId { go with parentId := some parentId }
        | none => gos
      else gos
    let gos := d.childrenFileIds.foldl
      (fun g c =>
        if c ≠ 0 then
          match dictLookup g goFileId with
          | some go => dictSet g goFileId
              { go with childrenIds := go.childrenIds ++ [toString c] }
          | none => g
        else g)
      gos
    { st with gameObjects := gos, transformMap := tmap }

/-- `_parse_game_object`: when the GameObject's first component reference is
a known transform anchor, rename the provisional entry (dict `pop` +
re-insert under the new key) and repoint the transform map; then set the
name, creating a fresh GameObject when none exists. -/
def parseGameObject (d : GameObjectDoc) (anchor : String) (st : ParseState) : ParseState :=
  let fileId := anchor
  let name := d.name.getD "GameObject"
  let transformId := d.componentFileIds.findSome? (fun o => o.map (fun x => toString x))
  let st :=
    match transformId with
    | some tid =>
      match dictLookup st.transformMap tid with
      | some oldGoId =>
        let gos :=
          match dictLookup st.gameObjects oldGoId with
          | some oldGo =>
            dictSet (dictErase st.gameObjects oldGoId) fileId
              { oldGo with fileId := fileId, name := name }
          | none => st.gameObjects
        { st with gameObjects := gos, transformMap := dictSet st.transformMap tid fileId }
      | none => st
    | none => st
  match dictLookup st.gameObjects fileId with
  | some go => { st with gameObjects := dictSet st.gameObjects fileId { go with name := name } }
  | none =>
    { st with gameObjects :=
        dictSet st.gameObjects fileId (GameObject.blank fileId name Transform.default) }

/-- `'pattern' in prop_path` — Python substring containment. -/
def strContains (s pat : String) : Bool :=
  decide (pat.data <:+: s.data)

/-- The elif chain over one modification entry of
`_parse_prefab_instance_in_prefab` (substring matching, first match wins). -/
def applyTransformMod (acc : Vec3 × Quat × Vec3) (md : Modification) : Vec3 × Quat × Vec3 :=
  let pos := acc.1
  let rot := acc.2.1
  let scl := acc.2.2
  let v := md.value
  if strContains md.propertyPath "m_LocalPosition.x" then (⟨v, pos.y, pos.z⟩, rot, scl)
  else if strContains md.propertyPath "m_LocalPosition.y" then (⟨pos.x, v, pos.z⟩, rot, scl)
  else if strContains md.propertyPath "m_LocalPosition.z" then (⟨pos.x, pos.y, v⟩, rot, scl)
  else if strContains md.propertyPath "m_LocalRotation.x" then (pos, ⟨v, rot.y, rot.z, rot.w⟩, scl)
  else if strContains md.propertyPath "m_LocalRotation.y" then (pos, ⟨rot.x, v, rot.z, rot.w⟩, scl)
  else if strContains md.propertyPath "m_LocalRotation.z" then (pos, ⟨rot.x, rot.y, v, rot.w⟩, scl)
  else if strContains md.propertyPath "m_LocalRotation.w" then (pos, ⟨rot.x, rot.y, rot.z, v⟩, scl)
  else if strContains md.propertyPath "m_LocalScale.x" then (pos, rot, ⟨v, scl.y, scl.z⟩)
  else if strContains md.propertyPath "m_LocalScale.y" then (pos, rot, ⟨scl.x, v, scl.z⟩)
  else if strContains md.propertyPath "m_LocalScale.z" then (pos, rot, ⟨scl.x, scl.y, v⟩)
  else acc

/-- `_parse_prefab_instance_in_prefab`: a nested-prefab block becomes an
instance-flagged GameObject whose transform is scanned out of the
modification list, defaulting to the identity. -/
def parsePrefabInstanceInPrefab (d : PrefabInstanceDoc) (anchor : String)
    (st : ParseState) : ParseState :=
  let guid := d.sourceGuid.getD ""
  if guid = "" then st
  else
    let parentId := fileIdStr d.parentFileId ""
    let name := d.nameOverride.getD "PrefabInstance"
    let trs := d.mods.foldl applyTransformMod (⟨0, 0, 0⟩, ⟨0, 0, 0, 1⟩, ⟨1, 1, 1⟩)
    let go : GameObject :=
      { GameObject.blank anchor name ⟨trs.1, trs.2.1, trs.2.2⟩ with
          isPrefabInstance := true
          prefabSourceGuid := some guid
          parentId := if parentId ≠ "" ∧ parentId ≠ "0" then some parentId else none }
    { st with gameObjects := dictSet st.gameObjects anchor go }

/-- One iteration of the anchored-block loop: a failed `yaml.safe_load`
(`none`) is skipped with a warning; otherwise the document dispatches on its
type key (component docs are stored verbatim under their anchor, anything
else is ignored). -/
def processBlock (st : ParseState) (b : String × Option UDoc) : ParseState :=
  match b.2 with
  | none => st
  | some (UDoc.transformDoc d) => parseTransform d b.1 st
  | some (UDoc.gameObjectDoc d) => parseGameObject d b.1 st
  | some (UDoc.prefabInstanceDoc d) => parsePrefabInstanceInPrefab d b.1 st
  | some (UDoc.componentDoc tag d) =>
      { st with componentsData := dictSet st.componentsData b.1 (tag, d) }
  | some UDoc.otherDoc => st

/-- The full block loop of `_parse_unity_prefab` (before `_build_hierarchy`).
Total by construction: no per-record failure escapes it. -/
def parseBlocks (blocks : List (String × Option UDoc)) (st : ParseState) : ParseState :=
  blocks.foldl processBlock st

/-! ### GUI prefab-reference resolution (`unity_scene_converter_gui.py`)

`PrefabDatabase` keeps `prefab_paths : name → Path` and
`prefab_guids : Unity GUID → Path`; `Path` values are modelled as their
string renderings.  `missing_prefabs` is a Python `set`, modelled as an
ordered duplicate-free list with membership-checked insertion. -/

/-- The GUI `GameObject` dataclass (it differs from the integrated one: no
component payloads, but an extra `prefab_name`). -/
structure GuiGameObject where
  fileId : String
  name : String
  transform : Transform
  parentId : Option String
  childrenIds : List String
  isPrefabInstance : Bool
  prefabSourceGuid : Option String
  prefabName : Option String
deriving DecidableEq

/-- The two lookup dicts of `PrefabDatabase` consulted during resolution. -/
structure PrefabDatabase where
  prefabPaths : List (String × String)
  prefabGuids : List (String × String)
deriving DecidableEq

/-- A decimal digit, as matched by the regex class `\d`. -/
def isDigitCh (c : Char) : Bool :=
  decide ('0' ≤ c) && decide (c ≤ '9')

/-- A whitespace character, as matched by the regex class `\s`. -/
def isSpaceCh (c : Char) : Bool :=
  c = ' ' || c = '\t' || c = '\n' || c = '\r' || c = '\x0b' || c = '\x0c'

/-- Helper for `re.sub(r'\s*\(\d+\)$', '', name)`: on the reversed character
list, consume `)`, one or more digits, `(`, then any run of whitespace;
`none` when the anchored pattern does not match. -/
def stripParenRev : List Char → Option (List Char)
  | ')' :: rest =>
    if (rest.takeWhile isDigitCh).isEmpty then none
    else
      match rest.dropWhile isDigitCh with
      | '(' :: rest2 => some (rest2.dropWhile isSpaceCh)
      | _ => none
  | _ => none

/-- `re.sub(r'\s*\(\d+\)$', '', name)` — strip a trailing parenthesized
integer (with any preceding whitespace), or return the name unchanged. -/
def stripDupSuffix (name : String) : String :=
  match stripParenRev name.data.reverse with
  | some r => ⟨r.reverse⟩
  | none => name

/-- `name.rsplit(' ', 1)[0] if ' ' in name else name` — drop the last
space-delimited token (splitting on a single space character). -/
def rsplitBase (name : String) : String :=
  if name.data.contains ' ' then
    match name.data.reverse.dropWhile (fun c => c ≠ ' ') with
    | _ :: rest => ⟨rest.reverse⟩
    | [] => name
  else name

/-- `PrefabDatabase.find_prefab_by_name`: exact key, then the
parenthesized-suffix strip, then the last-space strip; first hit wins. -/
def findPrefabByName (db : PrefabDatabase) (name : String) : Option String :=
  match dictLookup db.prefabPaths name with
  | some p => some p
  | none =>
    match dictLookup db.prefabPaths (stripDupSuffix name) with
    | some p => some p
    | none => dictLookup db.prefabPaths (rsplitBase name)

/-- `PrefabDatabase.find_prefab_by_guid`: plain dict `get`. -/
def findPrefabByGuid (db : PrefabDatabase) (guid : String) : Option String :=
  dictLookup db.prefabGuids guid

/-- Python `a or b` on strings (the empty string is falsy). -/
def pyOrStr (a b : String) : String := if a = "" then b else a

/-- `set.add` on the ordered-list model of a Python set. -/
def setAdd (s : List String) (x : String) : List String :=
  if x ∈ s then s else s ++ [x]

/-- The two fields of the converter mutated by `_resolve_prefab_references`:
`prefab_references : go_id → prefab path` and the `missing_prefabs` set. -/
structure ResolveState where
  prefabRefs : List (String × String)
  missingPrefabs : List String
deriving DecidableEq

/-- One iteration of the `_resolve_prefab_references` loop: skip
non-instances; try the GUID (when truthy), then the prefab name (when truthy
and the GUID lookup produced nothing); record the path on success, otherwise
add `go.prefab_name or go.name or "Unknown"` to the missing set. -/
def resolveOne (db : PrefabDatabase) (st : ResolveState)
    (kv : String × GuiGameObject) : ResolveState :=
  let go := kv.2
  if go.isPrefabInstance = false then st
  else
    let p₁ : Option String :=
      if optTruthy go.prefabSourceGuid then findPrefabByGuid db (go.prefabSourceGuid.getD "")
      else none
    let p₂ : Option String :=
      match p₁ with
      | some p => some p
      | none =>
        if optTruthy go.prefabName then findPrefabByName db (go.prefabName.getD "")
        else none
    match p₂ with
    | some p => { st with prefabRefs := dictSet st.prefabRefs kv.1 p }
    | none =>
      let nm := pyOrStr (go.prefabName.getD "") (pyOrStr go.name "Unknown")
      { st with missingPrefabs := setAdd st.missingPrefabs nm }

/-- `_resolve_prefab_references`: the loop over `game_objects.items()`. -/
def resolvePrefabReferences (db : PrefabDatabase)
    (gos : List (String × GuiGameObject)) (st : ResolveState) : ResolveState :=
  gos.foldl (resolveOne db) st

/-! ### GUI entity creation (`_create_entity_recursive`, lines 673-775)

The transcendental `_quaternion_to_euler` is an explicit parameter
`eulerFn`, and the `Path`-library search-directory relativization of
`_convert_to_assets_path` is a parameter `assetsPath`; no proved property
depends on either.  Unbounded recursion over the (possibly cyclic) children
graph is bounded by explicit fuel. -/

/-- One JSON patch value: the parent-entity patch carries a string, the
translate patches carry numbers. -/
inductive PatchValue where
  | strv (v : String)
  | numv (v : ℚ)
deriving DecidableEq

/-- One entry of the `Patches` array of a prefab instance. -/
structure Patch where
  op : String
  path : String
  value : PatchValue
deriving DecidableEq

/-- A prefab-instance reference: `{"Source": ..., "Patches": [...]}`. -/
structure InstanceData where
  source : String
  patches : List Patch
deriving DecidableEq

/-- `_create_prefab_instance`: the parent-entity patch always, plus three
translate patches when some converted position component exceeds `0.0001`. -/
def createPrefabInstance (assetsPath : String → String) (go : GuiGameObject)
    (prefabPath parentEntityId : String) : InstanceData :=
  let sourcePath := assetsPath prefabPath
  let t := (convertToO3DECoordinates go.transform).1
  let patches : List Patch :=
    [⟨"replace", "/ContainerEntity/Components/TransformComponent/Parent Entity",
      PatchValue.strv ("../" ++ parentEntityId)⟩]
  let patches :=
    if decide (|t.position.x| > 1/10000) || decide (|t.position.y| > 1/10000) ||
        decide (|t.position.z| > 1/10000) then
      patches ++
        [⟨"replace",
          "/ContainerEntity/Components/TransformComponent/Transform Data/Translate/0",
          PatchValue.numv t.position.x⟩,
         ⟨"replace",
          "/ContainerEntity/Components/TransformComponent/Transform Data/Translate/1",
          PatchValue.numv t.position.y⟩,
         ⟨"replace",
          "/ContainerEntity/Components/TransformComponent/Transform Data/Translate/2",
          PatchValue.numv t.position.z⟩]
    else patches
  ⟨sourcePath, patches⟩

/-- The optional `Transform Data` block of the GUI transform component:
emission thresholds `0.0001` on translation, Euler rotation, and uniform
scale (`euler` is the already-computed `_quaternion_to_euler` result). -/
def guiTransformData (euler : List ℚ) (t : Transform) (needsNonuniform : Bool) :
    Option TransformData :=
  let hasTranslation := decide (|t.position.x| > 1/10000) ||
    decide (|t.position.y| > 1/10000) || decide (|t.position.z| > 1/10000)
  let hasRotation := euler.any (fun v => decide (|v| > 1/10000))
  let hasScale := !needsNonuniform && decide (|t.scale.x - 1| > 1/10000)
  if hasTranslation || hasRotation || hasScale then
    some ⟨if hasTranslation then some [t.position.x, t.position.y, t.position.z] else none,
          if hasRotation then some euler else none,
          if hasScale then some t.scale.x else none⟩
  else none

/-- The mutable output threaded through `_create_entity_recursive`:
`entities_dict`, `instances_dict`, `entity_id_map`, the shared
entity-counter/random state, and the separate `instance_counter`. -/
structure GuiOut where
  entities : List (String × Entity)
  instances : List (String × InstanceData)
  entityIdMap : List (String × String)
  gen : GenState
  instCounter : ℕ
deriving DecidableEq

/-- `_create_entity_recursive`: a resolved prefab instance becomes an
`Instance_[n]` reference; anything else — including an unresolved prefab
instance — becomes a plain entity (six boilerplate components, the transform
component with the converted transform, the non-uniform scale component when
flagged, and a sort component when children were emitted). -/
def createEntityRecursive (rng : ℕ → ℕ) (eulerFn : Quat → List ℚ)
    (assetsPath : String → String) (prefabRefs : List (String × String))
    (allGos : List (String × GuiGameObject)) :
    ℕ → GuiGameObject → String → GuiOut → String × GuiOut
  | 0, _, _, st => ("", st)
  | fuel + 1, go, parentEntityId, st =>
    match dictLookup prefabRefs go.fileId with
    | some prefabPath =>
      let instanceId := mkInstanceId st.instCounter
      let inst := createPrefabInstance assetsPath go prefabPath parentEntityId
      (instanceId ++ "/ContainerEntity",
       { st with
           instCounter := st.instCounter + 1
           instances := dictSet st.instances instanceId inst })
    | none =>
      let entityId := (genEntityId st.gen).1
      let g₁ := (genEntityId st.gen).2
      let idMap := dictSet st.entityIdMap go.fileId entityId
      let conv := convertToO3DECoordinates go.transform
      let t := conv.1
      let needsNonuniform := conv.2
      let i₁ := (genComponentId rng g₁).1
      let g₂ := (genComponentId rng g₁).2
      let i₂ := (genComponentId rng g₂).1
      let g₃ := (genComponentId rng g₂).2
      let i₃ := (genComponentId rng g₃).1
      let g₄ := (genComponentId rng g₃).2
      let i₄ := (genComponentId rng g₄).1
      let g₅ := (genComponentId rng g₄).2
      let i₅ := (genComponentId rng g₅).1
      let g₆ := (genComponentId rng g₅).2
      let i₆ := (genComponentId rng g₆).1
      let g₇ := (genComponentId rng g₆).2
      let tid := (genComponentId rng g₇).1
      let g₈ := (genComponentId rng g₇).2
      let euler := eulerFn t.rotation
      let comps : List Component :=
        [Component.disabledComposition i₁,
         Component.entityIcon i₂,
         Component.inspector i₃,
         Component.lockComp i₄,
         Component.pendingComposition i₅,
         Component.visibility i₆,
         Component.transformComp tid parentEntityId
           (guiTransformData euler t needsNonuniform)]
      let comps :=
        if needsNonuniform then
          comps ++ [Component.nonUniformScale ((genComponentId rng g₈).1)
            [t.scale.x, t.scale.y, t.scale.z]]
        else comps
      let g₉ := if needsNonuniform then (genComponentId rng g₈).2 else g₈
      let st₁ : GuiOut := { st with entityIdMap := idMap, gen := g₉ }
      let step := fun (acc : List String × GuiOut) (childId : String) =>
        match dictLookup allGos childId with
        | some childGo =>
          let r := createEntityRecursive rng eulerFn assetsPath prefabRefs allGos
            fuel childGo entityId acc.2
          (if r.1 ≠ "" then acc.1 ++ [r.1] else acc.1, r.2)
        | none => acc
      let folded := go.childrenIds.foldl step ([], st₁)
      let childOrder := folded.1
      let st₂ := folded.2
      let comps :=
        if childOrder ≠ [] then
          comps ++ [Component.entitySort ((genComponentId rng st₂.gen).1) childOrder]
        else comps
      let st₃ :=
        if childOrder ≠ [] then { st₂ with gen := (genComponentId rng st₂.gen).2 }
        else st₂
      let entity : Entity := ⟨entityId, go.name, comps⟩
      (entityId, { st₃ with entities := dictSet st₃.entities entityId entity })

/-! ### Concrete inputs for the prefab-resolution claims -/

/-- A prefab database with two named prefabs and one GUID mapping. -/
def c7db : PrefabDatabase :=
  ⟨[("Crate", "Prefabs/Crate.prefab"), ("Rock", "Prefabs/Rock.prefab")],
   [("g-crate", "Prefabs/Crate.prefab")]⟩

/-- An instance node whose GUID resolves directly (its name would not). -/
def c7goGuid : GuiGameObject :=
  ⟨"42", "CrateNode", Transform.default, none, [], true, some "g-crate", some "WrongName"⟩

/-- An instance node with no GUID whose prefab name resolves exactly. -/
def c7goName : GuiGameObject :=
  ⟨"43", "RockNode", Transform.default, none, [], true, none, some "Rock"⟩

/-- An instance node whose GUID and name both fail to resolve. -/
def c7goMissing : GuiGameObject :=
  ⟨"900", "GhostNode", Transform.default, none, [], true, some "nope", some "Ghost"⟩

/-- The empty resolution state. -/
def c7st0 : ResolveState := ⟨[], []⟩

/-- The empty output state, counters at the level-container base. -/
def c7out0 : GuiOut := ⟨[], [], [], ⟨1000000, 0⟩, 0⟩

/-- A degenerate Euler oracle (the proved properties never inspect it). -/
def zeroEuler : Quat → List ℚ := fun _ => [0, 0, 0]

/-- A degenerate path relativization (identity). -/
def idPath : String → String := fun s => s

/-! ### GUID asset index (`AssetDatabase._build_guid_index` / `resolve_guid`) -/

/-- One scanned `.meta` file: its path, the result of the tolerant
`guid: <hex>` regex search on its content (`none` also covers an unreadable
file, whose exception is swallowed by the `try/except: continue`), and
whether the sibling asset file exists on disk. -/
structure MetaFile where
  metaPath : String
  guidMatch : Option String
  assetExists : Bool
deriving DecidableEq

/-- `Path(str(meta_file)[:-5])` — the sibling asset path, dropping `.meta`. -/
def assetPathOf (m : MetaFile) : String :=
  ⟨m.metaPath.data.take (m.metaPath.data.length - 5)⟩

/-- One iteration of the `rglob('*.meta')` loop of `_build_guid_index`:
`self.guid_to_path[guid] = asset_file` when the regex matched and the sibling
asset exists; a later duplicate GUID silently overwrites an earlier one. -/
def guidIndexStep (idx : List (String × String)) (m : MetaFile) : List (String × String) :=
  match m.guidMatch with
  | some g => if m.assetExists then dictSet idx g (assetPathOf m) else idx
  | none => idx

/-- `_build_guid_index`: fold over the scanned meta files in scan order. -/
def buildGuidIndex (metas : List MetaFile) : List (String × String) :=
  metas.foldl guidIndexStep []

/-- `resolve_guid`: `self.guid_to_path.get(guid)` — total, `None` when the
GUID is not in the index. -/
def resolveGuid (idx : List (String × String)) (g : String) : Option String :=
  dictLookup idx g

/-- Whether a meta file contributes a mapping for GUID `g`. -/
def declaresGuid (m : MetaFile) (g : String) : Prop :=
  m.guidMatch = some g ∧ m.assetExists = true

/-- Meta files for two assets declaring the same GUID (C10 witness). -/
def metaA : MetaFile := ⟨"assets/rock_v1.fbx.meta", some "abc123", true⟩

/-- The later duplicate of `metaA` in scan order. -/
def metaB : MetaFile := ⟨"assets/rock_v2.fbx.meta", some "abc123", true⟩

/-! ## Part 2 — theorems

### Library lemmas for the decimal rendering -/

theorem fromDigits_natDigits (n : ℕ) : fromDigits (natDigits n) = n := by
  induction n using Nat.strong_induction_on with
  | _ n ih =>
    rw [natDigits]
    by_cases h : n < 10
    · simp [h, fromDigits]
    · simp only [h, if_false, fromDigits]
      rw [ih (n / 10) (Nat.div_lt_self (by omega) (by omega))]
      omega

theorem natDigits_injective : Function.Injective natDigits := by
  intro a b h
  have := congrArg fromDigits h
  simpa [fromDigits_natDigits] using this

theorem natDigits_lt_ten (n : ℕ) : ∀ d ∈ natDigits n, d < 10 := by
  induction n using Nat.strong_induction_on with
  | _ n ih =>
    rw [natDigits]
    by_cases h : n < 10
    · simp [h]
    · simp only [h, if_false, List.mem_cons]
      intro d hd
      rcases hd with hd | hd
      · omega
      · exact ih (n / 10) (Nat.div_lt_self (by omega) (by omega)) d hd

theorem digitChar_inj_lt : ∀ a b : ℕ, a < 10 → b < 10 → digitChar a = digitChar b → a = b := by
  intro a b ha hb h
  interval_cases a <;> interval_cases b <;> simp_all [digitChar]

theorem map_digitChar_inj :
    ∀ l₁ l₂ : List ℕ, (∀ x ∈ l₁, x < 10) → (∀ x ∈ l₂, x < 10) →
      l₁.map digitChar = l₂.map digitChar → l₁ = l₂ := by
  intro l₁
  induction l₁ with
  | nil => intro l₂ _ _ h; cases l₂ <;> simp_all
  | cons a as ih =>
    intro l₂ h₁ h₂ h
    cases l₂ with
    | nil => simp_all
    | cons b bs =>
      simp only [List.map_cons, List.cons.injEq] at h
      have ha : a = b :=
        digitChar_inj_lt a b (h₁ a (by simp)) (h₂ b (by simp)) h.1
      have hs : as = bs :=
        ih bs (fun x hx => h₁ x (by simp [hx])) (fun x hx => h₂ x (by simp [hx])) h.2
      simp [ha, hs]

theorem natRepr_injective : Function.Injective natRepr := by
  intro a b h
  have hdata : ((natDigits a).reverse.map digitChar) = ((natDigits b).reverse.map digitChar) :=
    congrArg String.data h
  have hrev : (natDigits a).reverse = (natDigits b).reverse := by
    refine map_digitChar_inj _ _ ?_ ?_ hdata
    · intro x hx; exact natDigits_lt_ten a x (List.mem_reverse.mp hx)
    · intro x hx; exact natDigits_lt_ten b x (List.mem_reverse.mp hx)
  exact natDigits_injective (List.reverse_injective hrev)

theorem strData_append (a b : String) : (a ++ b).data = a.data ++ b.data := rfl

theorem mkEntityId_injective : Function.Injective mkEntityId := by
  intro a b h
  have hdata : "Entity_[".data ++ ((natRepr a).data ++ "]".data)
      = "Entity_[".data ++ ((natRepr b).data ++ "]".data) := by
    have := congrArg String.data h
    simpa [mkEntityId, strData_append, List.append_assoc] using this
  have h₂ : (natRepr a).data ++ "]".data = (natRepr b).data ++ "]".data :=
    List.append_cancel_left hdata
  have h₃ : (natRepr a).data = (natRepr b).data :=
    List.append_cancel_right h₂
  have : natRepr a = natRepr b := by
    cases ha : natRepr a; cases hb : natRepr b
    simp_all
  exact natRepr_injective this

theorem mkInstanceId_injective : Function.Injective mkInstanceId := by
  intro a b h
  have hdata : "Instance_[".data ++ ((natRepr a).data ++ "]".data)
      = "Instance_[".data ++ ((natRepr b).data ++ "]".data) := by
    have := congrArg String.data h
    simpa [mkInstanceId, strData_append, List.append_assoc] using this
  have h₂ : (natRepr a).data ++ "]".data = (natRepr b).data ++ "]".data :=
    List.append_cancel_left hdata
  have h₃ : (natRepr a).data = (natRepr b).data :=
    List.append_cancel_right h₂
  have : natRepr a = natRepr b := by
    cases ha : natRepr a; cases hb : natRepr b
    simp_all
  exact natRepr_injective this

/-! ### Dictionary lemmas -/

theorem dictLookup_cons {α : Type} (e : String × α) (rest : List (String × α)) (k : String) :
    dictLookup (e :: rest) k = if e.1 = k then some e.2 else dictLookup rest k := by
  cases e
  rfl

theorem dictLookup_map_replace_ne {α : Type} (m : List (String × α)) (k j : String) (v : α)
    (h : j ≠ k) :
    dictLookup (m.map (fun e => if e.1 = k then (k, v) else e)) j = dictLookup m j := by
  induction m with
  | nil => rfl
  | cons e rest ih =>
    simp only [List.map_cons]
    by_cases hek : e.1 = k
    · rw [if_pos hek]
      simp only [dictLookup_cons]
      rw [if_neg (fun hkj : k = j => h hkj.symm),
        if_neg (fun hej : e.1 = j => h (hej.symm.trans hek)), ih]
    · rw [if_neg hek]
      simp only [dictLookup_cons]
      by_cases hej : e.1 = j
      · simp [hej]
      · simp [hej, ih]

theorem dictContains_cons {α : Type} (e : String × α) (rest : List (String × α)) (k : String) :
    dictContains (e :: rest) k = ((e.1 = k : Bool) || dictContains rest k) := by
  by_cases h : e.1 = k <;> simp [dictContains, dictLookup_cons, h]

theorem dictLookup_map_replace_eq {α : Type} (m : List (String × α)) (k : String) (v : α)
    (h : dictContains m k) :
    dictLookup (m.map (fun e => if e.1 = k then (k, v) else e)) k = some v := by
  induction m with
  | nil => simp [dictContains, dictLookup] at h
  | cons e rest ih =>
    simp only [List.map_cons]
    by_cases hek : e.1 = k
    · rw [if_pos hek]
      simp [dictLookup_cons]
    · rw [if_neg hek]
      simp only [dictLookup_cons, if_neg hek]
      apply ih
      rw [dictContains_cons] at h
      simpa [hek] using h

theorem dictLookup_append {α : Type} (m₁ m₂ : List (String × α)) (j : String) :
    dictLookup (m₁ ++ m₂) j =
      if (dictLookup m₁ j).isSome then dictLookup m₁ j else dictLookup m₂ j := by
  induction m₁ with
  | nil => simp [dictLookup]
  | cons e rest ih =>
    simp only [List.cons_append, dictLookup_cons]
    by_cases hej : e.1 = j
    · simp [hej]
    · simp [hej, ih]

theorem dictLookup_eq_none_of_not_contains {α : Type} (m : List (String × α)) (k : String)
    (h : ¬ dictContains m k) : dictLookup m k = none := by
  cases hl : dictLookup m k with
  | none => rfl
  | some v => exact absurd (by simp [dictContains, hl]) h

theorem dictLookup_dictSet {α : Type} (m : List (String × α)) (k : String) (v : α) (j : String) :
    dictLookup (dictSet m k v) j = if j = k then some v else dictLookup m j := by
  by_cases hc : dictContains m k
  · simp only [dictSet, hc, if_true]
    by_cases hj : j = k
    · subst hj; simp [dictLookup_map_replace_eq m j v hc]
    · simp [hj, dictLookup_map_replace_ne m k j v hj]
  · simp only [dictSet]
    rw [if_neg hc, dictLookup_append]
    by_cases hj : j = k
    · subst hj
      rw [dictLookup_eq_none_of_not_contains m j hc]
      simp [dictLookup_cons]
    · cases hl : dictLookup m j with
      | some w => simp [hl, hj]
      | none =>
        simp only [hl, Option.isSome_none, Bool.false_eq_true, if_false, if_neg hj]
        simp only [dictLookup_cons]
        rw [if_neg (fun hkj : k = j => hj hkj.symm)]
        rfl

theorem dictKeys_dictSet_of_contains {α : Type} (m : List (String × α)) (k : String) (v : α)
    (h : dictContains m k) : dictKeys (dictSet m k v) = dictKeys m := by
  simp only [dictSet]
  rw [if_pos h]
  simp only [dictKeys, List.map_map]
  apply List.map_congr_left
  intro e _
  by_cases hek : e.1 = k <;> simp [hek]

theorem dictKeys_dictSet_of_not_contains {α : Type} (m : List (String × α)) (k : String) (v : α)
    (h : ¬ dictContains m k) : dictKeys (dictSet m k v) = dictKeys m ++ [k] := by
  simp only [dictSet]
  rw [if_neg h]
  simp [dictKeys]

theorem dictContains_dictSet {α : Type} (m : List (String × α)) (k : String) (v : α) (j : String) :
    dictContains (dictSet m k v) j = ((j = k : Bool) || dictContains m j) := by
  by_cases hj : j = k <;> simp [dictContains, dictLookup_dictSet, hj]

theorem dictLookup_isSome_iff_mem_keys {α : Type} (m : List (String × α)) (k : String) :
    (dictLookup m k).isSome ↔ k ∈ dictKeys m := by
  induction m with
  | nil => simp [dictLookup, dictKeys]
  | cons e rest ih =>
    simp only [dictLookup_cons, dictKeys, List.map_cons, List.mem_cons]
    by_cases h : e.1 = k
    · simp [h]
    · simp only [if_neg h]
      rw [show (rest.map Prod.fst) = dictKeys rest from rfl] at *
      constructor
      · intro hm
        exact Or.inr (ih.mp hm)
      · rintro (hm | hm)
        · exact absurd hm.symm h
        · exact ih.mpr hm

/-! ### C1 — coordinate conversion -/

/-- C1: for every Unity transform, `_convert_to_o3de_coordinates` returns
position `(-x, z, y)`, rotation `(-qx, qz, qy, qw)` with the scalar part `qw`
unchanged, and scale `(sx, sz, sy)`. -/
theorem c1_coordinate_remap (t : Transform) :
    (convertToO3DECoordinates t).1.position = ⟨-t.position.x, t.position.z, t.position.y⟩ ∧
    (convertToO3DECoordinates t).1.rotation =
      ⟨-t.rotation.x, t.rotation.z, t.rotation.y, t.rotation.w⟩ ∧
    (convertToO3DECoordinates t).1.scale = ⟨t.scale.x, t.scale.z, t.scale.y⟩ :=
  ⟨rfl, rfl, rfl⟩

/-! ### C4 — non-uniform scale detection -/

/-- C4 counterexample: at `cexTransformC4` the remapped scale's x and z
components differ by `0.00018 ≥ 0.0001`, yet the non-uniform flag is `false` —
`is_uniform_scale` never compares x against z, refuting the claim that the
flag is set exactly when *some* pair differs by at least the tolerance. -/
theorem c4_counterexample :
    (convertToO3DECoordinates cexTransformC4).2 = false ∧
    (1 : ℚ)/10000 ≤
      |(convertToO3DECoordinates cexTransformC4).1.scale.x -
        (convertToO3DECoordinates cexTransformC4).1.scale.z| := by
  constructor
  · simp [cexTransformC4, convertToO3DECoordinates, Transform.isUniformScale]
    norm_num [abs_lt]
  · have h₃ : (1 : ℚ)/10000 ≤ |(1 : ℚ) - (1 + 18/100000)| := by
      rw [le_abs]; right; norm_num
    simpa [cexTransformC4, convertToO3DECoordinates] using h₃

/-- C4 (amended): the non-uniform flag is set exactly when one of the two
*adjacent* pairs of the remapped scale — x vs y, or y vs z — differs by at
least the tolerance `0.0001`; the x vs z pair is never compared. -/
theorem c4_nonuniform_flag (t : Transform) :
    (convertToO3DECoordinates t).2 = true ↔
      ((1 : ℚ)/10000 ≤
          |(convertToO3DECoordinates t).1.scale.x - (convertToO3DECoordinates t).1.scale.y| ∨
       (1 : ℚ)/10000 ≤
          |(convertToO3DECoordinates t).1.scale.y - (convertToO3DECoordinates t).1.scale.z|) := by
  simp only [convertToO3DECoordinates, Transform.isUniformScale, Bool.not_eq_true',
    Bool.and_eq_false_iff, decide_eq_false_iff_not, not_lt]

/-! ### C5 — rigid-body constraint bitmask translation -/

/-- C5: the constraint bitmask translation maps Unity bit 2 to Lock Linear X,
swaps the Y and Z bits for both linear (4 ↔ Z, 8 ↔ Y) and angular locks
(32 ↔ Z, 64 ↔ Y), keeps bit 16 on Lock Angular X; in particular a bitmask
with only bit 4 set yields Lock Linear Z and no other lock flag. -/
theorem c5_constraint_remap (rb : RigidbodyData) :
    ((mkRigidBodyCfg rb).lockLinearX = decide (rb.constraints &&& 2 ≠ 0) ∧
     (mkRigidBodyCfg rb).lockLinearZ = decide (rb.constraints &&& 4 ≠ 0) ∧
     (mkRigidBodyCfg rb).lockLinearY = decide (rb.constraints &&& 8 ≠ 0) ∧
     (mkRigidBodyCfg rb).lockAngularX = decide (rb.constraints &&& 16 ≠ 0) ∧
     (mkRigidBodyCfg rb).lockAngularZ = decide (rb.constraints &&& 32 ≠ 0) ∧
     (mkRigidBodyCfg rb).lockAngularY = decide (rb.constraints &&& 64 ≠ 0)) ∧
    (rb.constraints = 4 →
      (mkRigidBodyCfg rb).lockLinearZ = true ∧
      (mkRigidBodyCfg rb).lockLinearX = false ∧
      (mkRigidBodyCfg rb).lockLinearY = false ∧
      (mkRigidBodyCfg rb).lockAngularX = false ∧
      (mkRigidBodyCfg rb).lockAngularY = false ∧
      (mkRigidBodyCfg rb).lockAngularZ = false) := by
  constructor
  · by_cases h : rb.constraints = 0
    · simp [mkRigidBodyCfg, h]
    · simp [mkRigidBodyCfg, h]
  · intro h4
    simp only [mkRigidBodyCfg, h4]
    rw [if_pos (by decide : (4 : ℕ) ≠ 0)]
    exact ⟨rfl, rfl, rfl, rfl, rfl, rfl⟩

/-- Witness for C5 at the concrete bitmask 4. -/
theorem c5_constraint_remap_witness :
    cexRb5.constraints = 4 ∧
    ((mkRigidBodyCfg cexRb5).lockLinearZ = true ∧
     (mkRigidBodyCfg cexRb5).lockLinearX = false ∧
     (mkRigidBodyCfg cexRb5).lockLinearY = false ∧
     (mkRigidBodyCfg cexRb5).lockAngularX = false ∧
     (mkRigidBodyCfg cexRb5).lockAngularY = false ∧
     (mkRigidBodyCfg cexRb5).lockAngularZ = false) :=
  ⟨rfl, (c5_constraint_remap cexRb5).2 rfl⟩

/-! ### PhysX synthesis lemmas (towards C2 and C3) -/

theorem makeBareEntity_eval (rng : ℕ → ℕ) (eid nm pid : String) (s : GenState) :
    makeBareEntity rng eid nm pid s =
      (⟨eid, nm,
        [Component.transformComp (rng s.rix) pid none,
         Component.disabledComposition (rng (s.rix + 1)),
         Component.entityIcon (rng (s.rix + 2)),
         Component.inspector (rng (s.rix + 3)),
         Component.lockComp (rng (s.rix + 4)),
         Component.onlyEntity (rng (s.rix + 5)) false,
         Component.pendingComposition (rng (s.rix + 6)),
         Component.visibility (rng (s.rix + 7))]⟩,
       ⟨s.counter, s.rix + 8⟩) := rfl

theorem dictSet_eq_append_of_fresh {α : Type} (m : List (String × α)) (k : String) (v : α)
    (h : ∀ j ∈ dictKeys m, j ≠ k) : dictSet m k v = m ++ [(k, v)] := by
  have hc : ¬ dictContains m k := by
    intro hcon
    exact h k ((dictLookup_isSome_iff_mem_keys m k).mp hcon) rfl
  simp only [dictSet]
  rw [if_neg hc]

theorem addColliderFor_spec (rng : ℕ → ℕ) (mm : String → Option String) (go : GameObject)
    (c : Collider) (comps : List Component) (s : GenState) :
    ∃ added s',
      addColliderFor rng mm go c comps s = (comps ++ added, s') ∧
      (added.filter Component.isColliderAttachment).map eraseComp
          = [expectedAttachment mm go c] ∧
      added.filter Component.isStaticRB = [] ∧
      added.filter Component.isTransformComp = [] ∧
      s'.counter = s.counter := by
  cases hk : c.kind
  case box =>
    refine ⟨[Component.boxShape (rng s.rix) [c.size.x, c.size.z, c.size.y] (colliderOffsetOpt c),
             Component.shapeCollider (rng (s.rix + 1)) ⟨c.isTrigger, colliderOffsetOpt c⟩
               [ShapeCfg.boxCfg [c.size.x, c.size.z, c.size.y]]],
            ⟨s.counter, s.rix + 2⟩, ?_, ?_, ?_, ?_, rfl⟩
    · simp [addColliderFor, addShapeCollider, genComponentId, colliderOffsetOpt, hk]
    · simp [List.filter, Component.isColliderAttachment, eraseComp, expectedAttachment,
        attachedShapeCfg, hk]
    · simp [List.filter, Component.isStaticRB]
    · simp [List.filter, Component.isTransformComp]
  case sphere =>
    refine ⟨[Component.sphereShape (rng s.rix) c.radius (colliderOffsetOpt c),
             Component.shapeCollider (rng (s.rix + 1)) ⟨c.isTrigger, colliderOffsetOpt c⟩
               [ShapeCfg.sphereCfg c.radius]],
            ⟨s.counter, s.rix + 2⟩, ?_, ?_, ?_, ?_, rfl⟩
    · simp [addColliderFor, addShapeCollider, genComponentId, colliderOffsetOpt, hk]
    · simp [List.filter, Component.isColliderAttachment, eraseComp, expectedAttachment,
        attachedShapeCfg, hk]
    · simp [List.filter, Component.isStaticRB]
    · simp [List.filter, Component.isTransformComp]
  case capsule =>
    refine ⟨[Component.capsuleShape (rng s.rix) c.height c.radius (colliderOffsetOpt c),
             Component.shapeCollider (rng (s.rix + 1)) ⟨c.isTrigger, colliderOffsetOpt c⟩
               [ShapeCfg.capsuleCfg c.height c.radius]],
            ⟨s.counter, s.rix + 2⟩, ?_, ?_, ?_, ?_, rfl⟩
    · simp [addColliderFor, addShapeCollider, genComponentId, colliderOffsetOpt, hk]
    · simp [List.filter, Component.isColliderAttachment, eraseComp, expectedAttachment,
        attachedShapeCfg, hk]
    · simp [List.filter, Component.isStaticRB]
    · simp [List.filter, Component.isTransformComp]
  case mesh =>
    refine ⟨[Component.meshCollider (rng s.rix) ⟨c.isTrigger, none⟩ (meshColliderHint mm go c)],
            ⟨s.counter, s.rix + 1⟩, ?_, ?_, ?_, ?_, rfl⟩
    · simp [addColliderFor, addMeshCollider, genComponentId, hk]
    · simp [List.filter, Component.isColliderAttachment, eraseComp, expectedAttachment, hk]
    · simp [List.filter, Component.isStaticRB]
    · simp [List.filter, Component.isTransformComp]

theorem physxLoop_tail_spec (rng : ℕ → ℕ) (mm : String → Option String) (go : GameObject)
    (primaryName primaryId : String) :
    ∀ (cs : List Collider) (idx : ℕ) (comps : List Component)
      (dict : List (String × Entity)) (cids : List String) (s : GenState),
      idx ≠ 0 →
      (∀ j ∈ dictKeys dict, ∀ c', s.counter < c' → j ≠ mkEntityId c') →
      ∃ (tail : List (String × Entity)) (s' : GenState),
        physxLoop rng mm go primaryName primaryId cs idx comps dict cids s
          = (comps, dict ++ tail, cids ++ tail.map Prod.fst, s') ∧
        s'.counter = s.counter + cs.length ∧
        tail.length = cs.length ∧
        (∀ i (hi : i < tail.length),
          ((tail.get ⟨i, hi⟩).1 = mkEntityId (s.counter + i + 1) ∧
           (tail.get ⟨i, hi⟩).2.id = mkEntityId (s.counter + i + 1) ∧
           (tail.get ⟨i, hi⟩).2.name = primaryName ++ "_Collider_" ++ natRepr (idx + i) ∧
           (tail.get ⟨i, hi⟩).2.colliderCount = 1 ∧
           (tail.get ⟨i, hi⟩).2.staticRBCount = 1 ∧
           (tail.get ⟨i, hi⟩).2.parentEntityOf = some primaryId) ∧
          ∀ (hc : i < cs.length),
            ((tail.get ⟨i, hi⟩).2.colliderComps).map eraseComp
              = [expectedAttachment mm go (cs.get ⟨i, hc⟩)]) := by
  intro cs
  induction cs with
  | nil =>
    intro idx comps dict cids s hidx _
    refine ⟨[], s, by simp [physxLoop], by simp, rfl, ?_⟩
    intro i hi
    exact absurd hi (by simp)
  | cons c rest ih =>
    intro idx comps dict cids s hidx hfresh
    obtain ⟨added, s₄, heq, hattach, hstatic, htrans, hcounter⟩ :=
      addColliderFor_spec rng mm go c
        ([Component.transformComp (rng s.rix) primaryId none,
          Component.disabledComposition (rng (s.rix + 1)),
          Component.entityIcon (rng (s.rix + 2)),
          Component.inspector (rng (s.rix + 3)),
          Component.lockComp (rng (s.rix + 4)),
          Component.onlyEntity (rng (s.rix + 5)) false,
          Component.pendingComposition (rng (s.rix + 6)),
          Component.visibility (rng (s.rix + 7))] ++
          [Component.staticRigidBody (rng (s.rix + 8))])
        ⟨s.counter + 1, s.rix + 9⟩
    have hcounter' : s₄.counter = s.counter + 1 := hcounter
    have hchildId : ¬ dictContains dict (mkEntityId (s.counter + 1)) := by
      intro hcon
      exact hfresh (mkEntityId (s.counter + 1))
        ((dictLookup_isSome_iff_mem_keys dict (mkEntityId (s.counter + 1))).mp hcon)
        (s.counter + 1) (by omega) rfl
    have hset := dictSet_eq_append_of_fresh dict (mkEntityId (s.counter + 1))
      (⟨mkEntityId (s.counter + 1), primaryName ++ "_Collider_" ++ natRepr idx,
        ([Component.transformComp (rng s.rix) primaryId none,
          Component.disabledComposition (rng (s.rix + 1)),
          Component.entityIcon (rng (s.rix + 2)),
          Component.inspector (rng (s.rix + 3)),
          Component.lockComp (rng (s.rix + 4)),
          Component.onlyEntity (rng (s.rix + 5)) false,
          Component.pendingComposition (rng (s.rix + 6)),
          Component.visibility (rng (s.rix + 7))] ++
          [Component.staticRigidBody (rng (s.rix + 8))]) ++ added⟩ : Entity)
      (fun j hj heqj => hfresh j hj (s.counter + 1) (by omega) heqj)
    have hstep :
        physxLoop rng mm go primaryName primaryId (c :: rest) idx comps dict cids s
          = physxLoop rng mm go primaryName primaryId rest (idx + 1) comps
              (dict ++ [(mkEntityId (s.counter + 1),
                (⟨mkEntityId (s.counter + 1), primaryName ++ "_Collider_" ++ natRepr idx,
                  ([Component.transformComp (rng s.rix) primaryId none,
                    Component.disabledComposition (rng (s.rix + 1)),
                    Component.entityIcon (rng (s.rix + 2)),
                    Component.inspector (rng (s.rix + 3)),
                    Component.lockComp (rng (s.rix + 4)),
                    Component.onlyEntity (rng (s.rix + 5)) false,
                    Component.pendingComposition (rng (s.rix + 6)),
                    Component.visibility (rng (s.rix + 7))] ++
                    [Component.staticRigidBody (rng (s.rix + 8))]) ++ added⟩ : Entity))])
              (cids ++ [mkEntityId (s.counter + 1)]) s₄ := by
      simp only [physxLoop]
      rw [if_neg hidx]
      simp only [genEntityId, makeBareEntity_eval, genComponentId]
      rw [heq, hset]
    have hfresh' : ∀ j ∈ dictKeys (dict ++ [(mkEntityId (s.counter + 1),
        (⟨mkEntityId (s.counter + 1), primaryName ++ "_Collider_" ++ natRepr idx,
          ([Component.transformComp (rng s.rix) primaryId none,
            Component.disabledComposition (rng (s.rix + 1)),
            Component.entityIcon (rng (s.rix + 2)),
            Component.inspector (rng (s.rix + 3)),
            Component.lockComp (rng (s.rix + 4)),
            Component.onlyEntity (rng (s.rix + 5)) false,
            Component.pendingComposition (rng (s.rix + 6)),
            Component.visibility (rng (s.rix + 7))] ++
            [Component.staticRigidBody (rng (s.rix + 8))]) ++ added⟩ : Entity))]),
        ∀ c', s₄.counter < c' → j ≠ mkEntityId c' := by
      intro j hj c' hc'
      rw [hcounter'] at hc'
      simp only [dictKeys, List.map_append, List.mem_append, List.map_cons, List.map_nil,
        List.mem_singleton] at hj
      rcases hj with hj | hj
      · exact hfresh j hj c' (by omega)
      · subst hj
        intro heqj
        have := mkEntityId_injective heqj
        omega
    obtain ⟨tail', s'', heq', hcnt', hlen', hprops'⟩ :=
      ih (idx + 1) comps
        (dict ++ [(mkEntityId (s.counter + 1),
          (⟨mkEntityId (s.counter + 1), primaryName ++ "_Collider_" ++ natRepr idx,
            ([Component.transformComp (rng s.rix) primaryId none,
              Component.disabledComposition (rng (s.rix + 1)),
              Component.entityIcon (rng (s.rix + 2)),
              Component.inspector (rng (s.rix + 3)),
              Component.lockComp (rng (s.rix + 4)),
              Component.onlyEntity (rng (s.rix + 5)) false,
              Component.pendingComposition (rng (s.rix + 6)),
              Component.visibility (rng (s.rix + 7))] ++
              [Component.staticRigidBody (rng (s.rix + 8))]) ++ added⟩ : Entity))])
        (cids ++ [mkEntityId (s.counter + 1)]) s₄ (by omega) hfresh'
    refine ⟨(mkEntityId (s.counter + 1),
        (⟨mkEntityId (s.counter + 1), primaryName ++ "_Collider_" ++ natRepr idx,
          ([Component.transformComp (rng s.rix) primaryId none,
            Component.disabledComposition (rng (s.rix + 1)),
            Component.entityIcon (rng (s.rix + 2)),
            Component.inspector (rng (s.rix + 3)),
            Component.lockComp (rng (s.rix + 4)),
            Component.onlyEntity (rng (s.rix + 5)) false,
            Component.pendingComposition (rng (s.rix + 6)),
            Component.visibility (rng (s.rix + 7))] ++
            [Component.staticRigidBody (rng (s.rix + 8))]) ++ added⟩ : Entity)) :: tail',
      s'', ?_, ?_, ?_, ?_⟩
    · rw [hstep, heq']
      simp [List.append_assoc]
    · rw [hcnt', hcounter']
      simp only [List.length_cons]
      omega
    · simp [hlen']
    · intro i hi
      cases i with
      | zero =>
        constructor
        · refine ⟨by simp, by simp, by simp, ?_, ?_, ?_⟩
          · -- collider count of the child is 1
            show (Entity.colliderCount _) = 1
            simp only [Entity.colliderCount, Entity.colliderComps, List.get]
            rw [List.filter_append, List.filter_append]
            have h1 : List.filter Component.isColliderAttachment
                [Component.transformComp (rng s.rix) primaryId none,
                 Component.disabledComposition (rng (s.rix + 1)),
                 Component.entityIcon (rng (s.rix + 2)),
                 Component.inspector (rng (s.rix + 3)),
                 Component.lockComp (rng (s.rix + 4)),
                 Component.onlyEntity (rng (s.rix + 5)) false,
                 Component.pendingComposition (rng (s.rix + 6)),
                 Component.visibility (rng (s.rix + 7))] = [] := rfl
            have h2 : List.filter Component.isColliderAttachment
                [Component.staticRigidBody (rng (s.rix + 8))] = [] := rfl
            rw [h1, h2]
            have := congrArg List.length hattach
            simpa using this
          · -- static marker count of the child is 1
            show (Entity.staticRBCount _) = 1
            simp only [Entity.staticRBCount, List.get]
            rw [List.filter_append, List.filter_append]
            have h1 : List.filter Component.isStaticRB
                [Component.transformComp (rng s.rix) primaryId none,
                 Component.disabledComposition (rng (s.rix + 1)),
                 Component.entityIcon (rng (s.rix + 2)),
                 Component.inspector (rng (s.rix + 3)),
                 Component.lockComp (rng (s.rix + 4)),
                 Component.onlyEntity (rng (s.rix + 5)) false,
                 Component.pendingComposition (rng (s.rix + 6)),
                 Component.visibility (rng (s.rix + 7))] = [] := rfl
            have h2 : List.filter Component.isStaticRB
                [Component.staticRigidBody (rng (s.rix + 8))]
                = [Component.staticRigidBody (rng (s.rix + 8))] := rfl
            rw [h1, h2, hstatic]
            simp
          · -- transform parent of the child is the primary entity id
            show (Entity.parentEntityOf _) = some primaryId
            simp only [Entity.parentEntityOf, List.get]
            rfl
        · intro hc
          show ((Entity.colliderComps _).map eraseComp) = _
          simp only [Entity.colliderComps, List.get]
          rw [List.filter_append, List.filter_append]
          have h1 : List.filter Component.isColliderAttachment
              [Component.transformComp (rng s.rix) primaryId none,
               Component.disabledComposition (rng (s.rix + 1)),
               Component.entityIcon (rng (s.rix + 2)),
               Component.inspector (rng (s.rix + 3)),
               Component.lockComp (rng (s.rix + 4)),
               Component.onlyEntity (rng (s.rix + 5)) false,
               Component.pendingComposition (rng (s.rix + 6)),
               Component.visibility (rng (s.rix + 7))] = [] := rfl
          have h2 : List.filter Component.isColliderAttachment
              [Component.staticRigidBody (rng (s.rix + 8))] = [] := rfl
          rw [h1, h2]
          simpa using hattach
      | succ i' =>
        have hi' : i' < tail'.length := by
          simpa using hi
        have hp := hprops' i' hi'
        constructor
        · refine ⟨?_, ?_, ?_, (hp.1.2.2.2.1), (hp.1.2.2.2.2.1), (hp.1.2.2.2.2.2)⟩
          · rw [List.get_cons_succ]
            rw [hp.1.1, hcounter']
            congr 1
            omega
          · rw [List.get_cons_succ]
            rw [hp.1.2.1, hcounter']
            congr 1
            omega
          · rw [List.get_cons_succ]
            rw [hp.1.2.2.1]
            congr 2
            omega
        · intro hc
          have hc' : i' < rest.length := by simpa using hc
          rw [List.get_cons_succ]
          rw [hp.2 hc', List.get_cons_succ]

/-- Characterization of `_create_physx_components` on a node with at least one
collider, run against an empty entities dict: the primary entity gains the
first collider's attachment and then one rigid-body component (dynamic if a
rigidbody was declared, otherwise the static marker); the remaining colliders
become child entities with the stated names, attachments, static markers and
parent links. -/
theorem createPhysx_core (rng : ℕ → ℕ) (mm : String → Option String) (go : GameObject)
    (entity : Entity) (s : GenState) (c₀ : Collider) (cs' : List Collider)
    (hcs : go.colliders = c₀ :: cs') :
    ∃ (added₀ : List Component) (rbId : ℕ) (tail : List (String × Entity)) (s' : GenState),
      createPhysxComponents rng mm go entity [] s
        = (⟨entity.id, entity.name,
            (entity.components ++ added₀)
              ++ (if go.hasRigidbody then
                    [Component.rigidBody rbId
                      (mkRigidBodyCfg (go.rigidbodyData.getD RigidbodyData.default))]
                  else [Component.staticRigidBody rbId])⟩,
           tail, tail.map Prod.fst, s') ∧
      (added₀.filter Component.isColliderAttachment).map eraseComp
        = [expectedAttachment mm go c₀] ∧
      added₀.filter Component.isStaticRB = [] ∧
      tail.length = cs'.length ∧
      (∀ i (hi : i < tail.length),
        (tail.get ⟨i, hi⟩).1 = (tail.get ⟨i, hi⟩).2.id ∧
        (tail.get ⟨i, hi⟩).2.name = go.name ++ "_Collider_" ++ natRepr (1 + i) ∧
        (tail.get ⟨i, hi⟩).2.colliderCount = 1 ∧
        (tail.get ⟨i, hi⟩).2.staticRBCount = 1 ∧
        (tail.get ⟨i, hi⟩).2.parentEntityOf = some entity.id) := by
  obtain ⟨added₀, s₀, heq0, hattach0, hstatic0, htrans0, hcnt0⟩ :=
    addColliderFor_spec rng mm go c₀ entity.components s
  obtain ⟨tail, s₁, heq1, hcnt1, hlen1, hprops1⟩ :=
    physxLoop_tail_spec rng mm go go.name entity.id cs' 1 (entity.components ++ added₀)
      [] [] s₀ (by omega) (by intro j hj; simp [dictKeys] at hj)
  refine ⟨added₀, rng s₁.rix, tail, ⟨s₁.counter, s₁.rix + 1⟩, ?_, hattach0, hstatic0, hlen1, ?_⟩
  · have hne : go.colliders.isEmpty = false := by rw [hcs]; rfl
    simp only [createPhysxComponents, hne, Bool.false_eq_true, false_and, if_false, hcs,
      physxLoop, if_pos rfl, heq0]
    rw [show (0 + 1) = 1 from rfl]
    rw [heq1]
    simp only [List.nil_append, genComponentId]
    by_cases hrb : go.hasRigidbody <;> simp [hrb]
  · intro i hi
    have hp := hprops1 i hi
    refine ⟨?_, ?_, hp.1.2.2.2.1, hp.1.2.2.2.2.1, hp.1.2.2.2.2.2⟩
    · rw [hp.1.1, hp.1.2.1]
    · exact hp.1.2.2.1

/-! ### C2 — multi-collider fan-out -/

/-- C2: a GameObject with N ≥ 2 colliders yields one primary entity keeping
the first collider plus N-1 synthetic child entities named
`{parentName}_Collider_{i}` (i = 1..N-1), each holding exactly one collider
attachment and a transform-parent link to the primary entity's output
identifier. -/
theorem c2_collider_fanout (rng : ℕ → ℕ) (mm : String → Option String) (go : GameObject)
    (entity : Entity) (s : GenState) (c₀ : Collider) (cs' : List Collider)
    (hcs : go.colliders = c₀ :: cs') (hN : 1 ≤ cs'.length) :
    C2Spec mm go entity (createPhysxComponents rng mm go entity [] s) c₀ := by
  obtain ⟨added₀, rbId, tail, s', heq, hattach0, hstatic0, hlen, hprops⟩ :=
    createPhysx_core rng mm go entity s c₀ cs' hcs
  rw [C2Spec, heq]
  refine ⟨rfl, ?_, ?_, rfl, rfl, ?_⟩
  · simp only [hlen, hcs, List.length_cons]
    omega
  · intro i hi
    have hp := hprops i hi
    refine ⟨?_, hp.2.2.1, hp.2.2.2.2, hp.1⟩
    rw [hp.2.1]
    congr 2
    omega
  · simp only [Entity.colliderComps, List.filter_append, List.map_append, hattach0]
    have hrbfilter : List.filter Component.isColliderAttachment
        (if go.hasRigidbody then
          [Component.rigidBody rbId (mkRigidBodyCfg (go.rigidbodyData.getD RigidbodyData.default))]
         else [Component.staticRigidBody rbId]) = [] := by
      by_cases hrb : go.hasRigidbody <;> simp [hrb, List.filter, Component.isColliderAttachment]
    rw [hrbfilter]
    simp

/-- Witness for C2 at a GameObject with three box colliders. -/
theorem c2_collider_fanout_witness :
    cexGoC2.colliders = simpleBoxCollider :: [simpleBoxCollider, simpleBoxCollider] ∧
    1 ≤ [simpleBoxCollider, simpleBoxCollider].length ∧
    C2Spec (fun _ => none) cexGoC2 baseEntity
      (createPhysxComponents rngDistinct (fun _ => none) cexGoC2 baseEntity [] ⟨1000001, 0⟩)
      simpleBoxCollider :=
  ⟨rfl, by decide,
   c2_collider_fanout rngDistinct (fun _ => none) cexGoC2 baseEntity ⟨1000001, 0⟩
     simpleBoxCollider [simpleBoxCollider, simpleBoxCollider] rfl (by decide)⟩

/-! ### C3 — static-body marker synthesis -/

/-- C3 counterexample: `cexGoC3` declares a rigidbody, yet its synthetic
collider child entity still carries an `EditorStaticRigidBodyComponent` —
refuting the claim that a child of a node with a rigidbody holds only its
transform-parent link and its one collider. -/
theorem c3_counterexample :
    cexGoC3.hasRigidbody = true ∧
    (createPhysxComponents rngDistinct (fun _ => none) cexGoC3 baseEntity []
        ⟨1000001, 0⟩).2.1.length = 1 ∧
    ∀ kv ∈ (createPhysxComponents rngDistinct (fun _ => none) cexGoC3 baseEntity []
        ⟨1000001, 0⟩).2.1,
      kv.2.staticRBCount = 1 := by
  obtain ⟨added₀, rbId, tail, s', heq, hattach0, hstatic0, hlen, hprops⟩ :=
    createPhysx_core rngDistinct (fun _ => none) cexGoC3 baseEntity ⟨1000001, 0⟩
      simpleBoxCollider [simpleBoxCollider] rfl
  refine ⟨rfl, ?_, ?_⟩
  · rw [heq]
    simpa using hlen
  · intro kv hkv
    rw [heq] at hkv
    simp only at hkv
    obtain ⟨⟨i, hi⟩, hget⟩ := List.mem_iff_get.mp hkv
    have hp := (hprops i hi).2.2.2.1
    rw [← hget]
    exact hp

/-- C3 (amended): with at least one collider, the primary entity gains the
static-body marker exactly when no rigidbody was declared, but every
synthetic collider child entity carries the marker unconditionally — even
when the source GameObject has a rigidbody. -/
theorem c3_static_marker (rng : ℕ → ℕ) (mm : String → Option String) (go : GameObject)
    (entity : Entity) (s : GenState) (h : go.colliders ≠ []) :
    C3Spec go entity (createPhysxComponents rng mm go entity [] s) := by
  obtain ⟨c₀, cs', hcs⟩ : ∃ c₀ cs', go.colliders = c₀ :: cs' := by
    cases hgc : go.colliders with
    | nil => exact absurd hgc h
    | cons a l => exact ⟨a, l, rfl⟩
  obtain ⟨added₀, rbId, tail, s', heq, hattach0, hstatic0, hlen, hprops⟩ :=
    createPhysx_core rng mm go entity s c₀ cs' hcs
  rw [C3Spec, heq]
  constructor
  · simp only [Entity.staticRBCount, List.filter_append, List.length_append, hstatic0]
    by_cases hrb : go.hasRigidbody <;>
      simp [hrb, List.filter, Component.isStaticRB]
  · intro kv hkv
    simp only at hkv
    obtain ⟨⟨i, hi⟩, hget⟩ := List.mem_iff_get.mp hkv
    have hp := (hprops i hi).2.2.2.1
    rw [← hget]
    exact hp

/-- Witness for C3 (amended) at a GameObject with a rigidbody and two box
colliders. -/
theorem c3_static_marker_witness :
    cexGoC3.colliders ≠ [] ∧
    C3Spec cexGoC3 baseEntity
      (createPhysxComponents rngDistinct (fun _ => none) cexGoC3 baseEntity [] ⟨1000001, 0⟩) :=
  ⟨by decide,
   c3_static_marker rngDistinct (fun _ => none) cexGoC3 baseEntity ⟨1000001, 0⟩ (by decide)⟩

/-! ### Hierarchy-building lemmas (towards C6) -/

theorem forwardPass_nil (k : String) (st : List (String × GameObject)) :
    forwardPass k [] st = st := rfl

theorem forwardPass_cons (k c : String) (cs : List String) (st : List (String × GameObject)) :
    forwardPass k (c :: cs) st = forwardPass k cs (forwardSetParent k st c) := rfl

theorem lookup_forwardSetParent (k : String) (st : List (String × GameObject)) (c j : String) :
    dictLookup (forwardSetParent k st c) j
      = (dictLookup st j).map (fun g => if j = c then { g with parentId := some k } else g) := by
  unfold forwardSetParent
  cases hc : dictLookup st c with
  | none =>
    cases hj : dictLookup st j with
    | none => simp [hj]
    | some g =>
      by_cases hjc : j = c
      · subst hjc
        rw [hj] at hc
        cases hc
      · simp [hj, hjc]
  | some cgo =>
    rw [dictLookup_dictSet]
    by_cases hjc : j = c
    · subst hjc
      simp [hc]
    · simp [hjc]

theorem lookup_forwardPass (k : String) (cs : List String) :
    ∀ (st : List (String × GameObject)) (j : String),
      dictLookup (forwardPass k cs st) j
        = (dictLookup st j).map
            (fun g => if j ∈ cs then { g with parentId := some k } else g) := by
  induction cs with
  | nil =>
    intro st j
    rw [forwardPass_nil]
    cases hj : dictLookup st j <;> simp
  | cons c cs' ih =>
    intro st j
    rw [forwardPass_cons, ih, lookup_forwardSetParent]
    cases hj : dictLookup st j with
    | none => simp
    | some g =>
      by_cases hjc : j = c
      · subst hjc
        by_cases hmem : j ∈ cs' <;> simp [hmem]
      · by_cases hmem : j ∈ cs' <;> simp [hmem, hjc]

theorem dictKeys_forwardSetParent (k : String) (st : List (String × GameObject)) (c : String) :
    dictKeys (forwardSetParent k st c) = dictKeys st := by
  unfold forwardSetParent
  cases hc : dictLookup st c with
  | none => rfl
  | some cgo =>
    exact dictKeys_dictSet_of_contains _ _ _ (by simp [dictContains, hc])

theorem dictKeys_forwardPass (k : String) (cs : List String) :
    ∀ st, dictKeys (forwardPass k cs st) = dictKeys st := by
  induction cs with
  | nil => intro st; rfl
  | cons c cs' ih =>
    intro st
    rw [forwardPass_cons, ih, dictKeys_forwardSetParent]

theorem backwardEnsureChild_cases (fileId : String) (m : List (String × GameObject)) :
    backwardEnsureChild fileId m = m ∨
    ∃ p pgo, dictLookup m p = some pgo ∧ fileId ∉ pgo.childrenIds ∧
      dictContains m p ∧
      backwardEnsureChild fileId m
        = dictSet m p { pgo with childrenIds := pgo.childrenIds ++ [fileId] } := by
  unfold backwardEnsureChild
  split
  · exact Or.inl rfl
  · rename_i go h₀
    split
    · rename_i p hp
      by_cases hpe : p ≠ ""
      · rw [if_pos hpe]
        split
        · rename_i pgo hpp
          by_cases hmem : fileId ∈ pgo.childrenIds
          · rw [if_pos hmem]
            exact Or.inl rfl
          · rw [if_neg hmem]
            exact Or.inr ⟨p, pgo, hpp, hmem, by simp [dictContains, hpp], rfl⟩
        · exact Or.inl rfl
      · rw [if_neg hpe]
        exact Or.inl rfl
    · exact Or.inl rfl

theorem backward_parent_preserved (fileId : String) (m : List (String × GameObject))
    (j : String) :
    (dictLookup (backwardEnsureChild fileId m) j).map GameObject.parentId
      = (dictLookup m j).map GameObject.parentId := by
  rcases backwardEnsureChild_cases fileId m with h | ⟨p, pgo, hpp, _, _, h⟩
  · rw [h]
  · rw [h, dictLookup_dictSet]
    by_cases hjp : j = p
    · subst hjp
      simp [hpp]
    · simp [hjp]

theorem backward_children_mono (fileId : String) (m : List (String × GameObject))
    (j : String) (g g' : GameObject) (h : dictLookup m j = some g)
    (h' : dictLookup (backwardEnsureChild fileId m) j = some g') :
    ∀ x ∈ g.childrenIds, x ∈ g'.childrenIds := by
  rcases backwardEnsureChild_cases fileId m with hc | ⟨p, pgo, hpp, _, _, hc⟩
  · rw [hc, h] at h'
    injection h' with h''
    subst h''
    exact fun x hx => hx
  · rw [hc, dictLookup_dictSet] at h'
    by_cases hjp : j = p
    · subst hjp
      rw [h] at hpp
      injection hpp with hgp
      subst hgp
      rw [if_pos rfl] at h'
      injection h' with h''
      subst h''
      intro x hx
      simp [hx]
    · rw [if_neg hjp, h] at h'
      injection h' with h''
      subst h''
      exact fun x hx => hx

theorem backward_post (fileId : String) (m : List (String × GameObject)) (go : GameObject)
    (p : String) (pf : GameObject)
    (hk : dictLookup m fileId = some go) (hp : go.parentId = some p) (hpne : p ≠ "")
    (hpf : dictLookup m p = some pf) :
    ∃ pgo', dictLookup (backwardEnsureChild fileId m) p = some pgo' ∧
      fileId ∈ pgo'.childrenIds := by
  unfold backwardEnsureChild
  simp only [hk, hp]
  rw [if_pos hpne]
  simp only [hpf]
  by_cases hmem : fileId ∈ pf.childrenIds
  · rw [if_pos hmem]
    exact ⟨pf, hpf, hmem⟩
  · rw [if_neg hmem]
    refine ⟨{ pf with childrenIds := pf.childrenIds ++ [fileId] }, ?_, by simp⟩
    rw [dictLookup_dictSet]
    simp

theorem dictKeys_backward (fileId : String) (m : List (String × GameObject)) :
    dictKeys (backwardEnsureChild fileId m) = dictKeys m := by
  rcases backwardEnsureChild_cases fileId m with h | ⟨p, pgo, _, _, hcon, h⟩
  · rw [h]
  · rw [h]
    exact dictKeys_dictSet_of_contains _ _ _ hcon

theorem dictKeys_bidirStep (st : List (String × GameObject)) (k : String) :
    dictKeys (bidirStep st k) = dictKeys st := by
  unfold bidirStep
  cases h : dictLookup st k with
  | none => rfl
  | some go => rw [dictKeys_backward, dictKeys_forwardPass]

theorem bidirStep_inv (st : List (String × GameObject)) (k₀ : String) (rest : List String)
    (h : hierInv (k₀ :: rest) st) : hierInv rest (bidirStep st k₀) := by
  unfold bidirStep
  cases h₀ : dictLookup st k₀ with
  | none =>
    show hierInv rest st
    intro k go p hk hp hpne hps
    rcases h k go p hk hp hpne hps with hl | hr
    · exact Or.inl hl
    · rcases List.mem_cons.mp hr with heq | hmem
      · subst heq
        rw [h₀] at hk
        cases hk
      · exact Or.inr hmem
  | some go₀ =>
    show hierInv rest (backwardEnsureChild k₀ (forwardPass k₀ go₀.childrenIds st))
    intro k go p hk hp hpne hps
    -- keys are preserved through both halves of the step
    have hkeysb : dictKeys (backwardEnsureChild k₀ (forwardPass k₀ go₀.childrenIds st))
        = dictKeys (forwardPass k₀ go₀.childrenIds st) := dictKeys_backward _ _
    have hkeysf : dictKeys (forwardPass k₀ go₀.childrenIds st) = dictKeys st :=
      dictKeys_forwardPass _ _ _
    have hps_stf : (dictLookup (forwardPass k₀ go₀.childrenIds st) p).isSome := by
      rw [dictLookup_isSome_iff_mem_keys] at hps ⊢
      rw [hkeysf]
      rw [hkeysb, hkeysf] at hps
      exact hps
    have hps_st : (dictLookup st p).isSome := by
      rw [dictLookup_isSome_iff_mem_keys] at hps_stf ⊢
      rwa [hkeysf] at hps_stf
    -- the parent field of k in the final state agrees with the forward pass
    have hparent := backward_parent_preserved k₀ (forwardPass k₀ go₀.childrenIds st) k
    have hkf : ∃ gf, dictLookup (forwardPass k₀ go₀.childrenIds st) k = some gf ∧
        gf.parentId = some p := by
      cases hgf : dictLookup (forwardPass k₀ go₀.childrenIds st) k with
      | none =>
        rw [hk, hgf] at hparent
        simp at hparent
      | some gf =>
        refine ⟨gf, rfl, ?_⟩
        rw [hk, hgf] at hparent
        simp only [Option.map_some'] at hparent
        injection hparent with hpar
        rw [← hpar, hp]
    obtain ⟨gf, hgf, hgfp⟩ := hkf
    have hform := lookup_forwardPass k₀ go₀.childrenIds st k
    have hkst : ∃ g₀k, dictLookup st k = some g₀k := by
      cases hst : dictLookup st k with
      | none =>
        rw [hgf, hst] at hform
        simp at hform
      | some g => exact ⟨g, rfl⟩
    obtain ⟨g₀k, hg₀k⟩ := hkst
    rw [hgf, hg₀k] at hform
    simp only [Option.map_some'] at hform
    injection hform with hform
    by_cases hmem : k ∈ go₀.childrenIds
    · -- the forward pass overwrote k's parent with k₀, so p = k₀
      rw [if_pos hmem] at hform
      have hpk₀ : p = k₀ := by
        rw [hform] at hgfp
        simp at hgfp
        exact hgfp.symm
      rw [hpk₀] at hps ⊢
      -- the children of p (= k₀) in the forward state are exactly go₀'s
      have hk₀form := lookup_forwardPass k₀ go₀.childrenIds st k₀
      rw [h₀] at hk₀form
      simp only [Option.map_some'] at hk₀form
      have hk₀ch : ∃ g₀f, dictLookup (forwardPass k₀ go₀.childrenIds st) k₀ = some g₀f ∧
          g₀f.childrenIds = go₀.childrenIds := by
        by_cases hm : k₀ ∈ go₀.childrenIds <;> simp [hm] at hk₀form <;>
          exact ⟨_, hk₀form, rfl⟩
      obtain ⟨g₀f, hg₀f, hch⟩ := hk₀ch
      cases hfin : dictLookup
          (backwardEnsureChild k₀ (forwardPass k₀ go₀.childrenIds st)) k₀ with
      | none =>
        rw [hfin] at hps
        simp at hps
      | some pgo' =>
        refine Or.inl ⟨pgo', rfl, ?_⟩
        exact backward_children_mono k₀ _ k₀ g₀f pgo' hg₀f hfin k (hch ▸ hmem)
    · -- the forward pass left k's parent alone
      rw [if_neg hmem] at hform
      have hg₀kp : g₀k.parentId = some p := by
        rw [← hform]
        exact hgfp
      rcases h k g₀k p hg₀k hg₀kp hpne hps_st with hl | hr
      · -- k was already among p's children before the step
        obtain ⟨pgo, hpgo, hkin⟩ := hl
        have hpform := lookup_forwardPass k₀ go₀.childrenIds st p
        rw [hpgo] at hpform
        simp only [Option.map_some'] at hpform
        have hpf : ∃ pf, dictLookup (forwardPass k₀ go₀.childrenIds st) p = some pf ∧
            pf.childrenIds = pgo.childrenIds := by
          by_cases hm : p ∈ go₀.childrenIds <;> simp [hm] at hpform <;>
            exact ⟨_, hpform, rfl⟩
        obtain ⟨pf, hpf, hpfch⟩ := hpf
        cases hfin : dictLookup
            (backwardEnsureChild k₀ (forwardPass k₀ go₀.childrenIds st)) p with
        | none =>
          rw [hfin] at hps
          simp at hps
        | some pgo' =>
          refine Or.inl ⟨pgo', rfl, ?_⟩
          exact backward_children_mono k₀ _ p pf pgo' hpf hfin k (hpfch ▸ hkin)
      · rcases List.mem_cons.mp hr with heq | hmem'
        · -- k = k₀: the reverse half appends k₀ to its parent's children
          rw [heq] at hgf ⊢
          cases hpfs : dictLookup (forwardPass k₀ go₀.childrenIds st) p with
          | none =>
            rw [hpfs] at hps_stf
            simp at hps_stf
          | some pf =>
            obtain ⟨pgo', hfin, hin⟩ :=
              backward_post k₀ (forwardPass k₀ go₀.childrenIds st) gf p pf hgf hgfp hpne hpfs
            exact Or.inl ⟨pgo', hfin, hin⟩
        · exact Or.inr hmem'

theorem ensure_fold_inv :
    ∀ (ks : List String) (st : List (String × GameObject)),
      hierInv ks st → hierInv [] (List.foldl bidirStep st ks) := by
  intro ks
  induction ks with
  | nil => intro st h; simpa using h
  | cons k rest ih =>
    intro st h
    exact ih (bidirStep st k) (bidirStep_inv st k rest h)

/-! ### C6 — hierarchy build pass -/

/-- C6 counterexample.  On `cexHierMap` (through `cexTmap`): node B declared
parent C, yet after the pass B's parent is A (the children-list declaration
won, not the explicit parent declaration), and A's parent is B — the
parent relation contains the cycle A ↔ B.  On `cexHierMap2`: both X and Y end
with a null parent, so the pass does not produce exactly one root. -/
theorem c6_counterexample :
    ((dictLookup (buildHierarchyLinks cexTmap cexHierMap) "B").map GameObject.parentId
        = some (some "A")) ∧
    ((dictLookup (buildHierarchyLinks cexTmap cexHierMap) "A").map GameObject.parentId
        = some (some "B")) ∧
    goB6.parentId = some "tC" ∧ dictLookup cexTmap "tC" = some "C" ∧
    ((dictLookup (buildHierarchyLinks [] cexHierMap2) "X").map GameObject.parentId
        = some none) ∧
    ((dictLookup (buildHierarchyLinks [] cexHierMap2) "Y").map GameObject.parentId
        = some none) := by
  refine ⟨?_, ?_, rfl, rfl, ?_, ?_⟩ <;> decide

/-- C6 (amended): the hierarchy-build pass enforces neither acyclicity nor a
unique root, and on disagreement the forward (children-list) declaration
wins; what it does guarantee is one-sided consistency — after the pass,
every node whose (non-empty) parent field names an existing key appears in
that parent's children list. -/
theorem c6_links_consistent (tmap : List (String × String))
    (m : List (String × GameObject)) (k p : String) (go : GameObject)
    (hk : dictLookup (buildHierarchyLinks tmap m) k = some go)
    (hp : go.parentId = some p) (hpne : p ≠ "")
    (hps : (dictLookup (buildHierarchyLinks tmap m) p).isSome) :
    ∃ pgo, dictLookup (buildHierarchyLinks tmap m) p = some pgo ∧
      k ∈ pgo.childrenIds := by
  have hinit : hierInv (dictKeys (m.map (fun e => (e.1, resolveLinks tmap e.2))))
      (m.map (fun e => (e.1, resolveLinks tmap e.2))) := by
    intro k' go' p' hk' _ _ _
    exact Or.inr ((dictLookup_isSome_iff_mem_keys _ _).mp (by simp [hk']))
  have hfold := ensure_fold_inv (dictKeys (m.map (fun e => (e.1, resolveLinks tmap e.2))))
    (m.map (fun e => (e.1, resolveLinks tmap e.2))) hinit
  have hfin : hierInv [] (buildHierarchyLinks tmap m) := hfold
  rcases hfin k go p hk hp hpne hps with hl | hr
  · exact hl
  · simp at hr

/-- Witness for C6 (amended): a child whose declared parent survives the
pass ends up in that parent's children list. -/
theorem c6_links_consistent_witness :
    dictLookup (buildHierarchyLinks [] c6WitnessMap) "K"
      = some { GameObject.blank "K" "K" Transform.default with parentId := some "P" } ∧
    ({ GameObject.blank "K" "K" Transform.default with
        parentId := some "P" } : GameObject).parentId = some "P" ∧
    ("P" : String) ≠ "" ∧
    (dictLookup (buildHierarchyLinks [] c6WitnessMap) "P").isSome ∧
    ∃ pgo, dictLookup (buildHierarchyLinks [] c6WitnessMap) "P" = some pgo ∧
      "K" ∈ pgo.childrenIds :=
  ⟨by decide, by decide, by decide, by decide,
   c6_links_consistent [] c6WitnessMap "K" "P"
     { GameObject.blank "K" "K" Transform.default with parentId := some "P" }
     (by decide) (by decide) (by decide) (by decide)⟩

/-! ### C10 — GUID index totality and duplicate handling -/

theorem guidIndex_fold_no_contrib :
    ∀ (metas : List MetaFile) (idx : List (String × String)) (g : String),
      (∀ m ∈ metas, ¬ declaresGuid m g) →
      dictLookup (List.foldl guidIndexStep idx metas) g = dictLookup idx g := by
  intro metas
  induction metas with
  | nil => intro idx g _; rfl
  | cons m rest ih =>
    intro idx g h
    rw [List.foldl_cons, ih _ _ (fun m' hm' => h m' (by simp [hm']))]
    cases hg : m.guidMatch with
    | none => simp [guidIndexStep, hg]
    | some g' =>
      simp only [guidIndexStep, hg]
      by_cases hex : m.assetExists
      · rw [if_pos hex, dictLookup_dictSet]
        have hne : g ≠ g' := by
          intro heq
          exact h m (by simp) ⟨by rw [hg, heq], hex⟩
        rw [if_neg hne]
      · rw [if_neg hex]

/-- C10: `resolve_guid` is total — it returns `None` for any GUID no scanned
meta file contributes — and when several meta files (each with an existing
sibling asset) declare the same GUID, the index keeps exactly the mapping of
the one encountered last in scan order, with no warning or error (the model
has no error channel at all). -/
theorem c10_guid_index (metas : List MetaFile) (g : String) :
    ((∀ m ∈ metas, ¬ declaresGuid m g) → resolveGuid (buildGuidIndex metas) g = none) ∧
    (∀ (l₁ : List MetaFile) (m : MetaFile) (l₂ : List MetaFile),
      metas = l₁ ++ m :: l₂ → declaresGuid m g →
      (∀ m' ∈ l₂, ¬ declaresGuid m' g) →
      resolveGuid (buildGuidIndex metas) g = some (assetPathOf m)) := by
  constructor
  · intro h
    exact guidIndex_fold_no_contrib metas [] g h
  · intro l₁ m l₂ hsplit hm hl₂
    subst hsplit
    unfold resolveGuid buildGuidIndex
    rw [List.foldl_append, List.foldl_cons]
    rw [guidIndex_fold_no_contrib l₂ _ g hl₂]
    simp only [guidIndexStep, hm.1]
    rw [if_pos hm.2, dictLookup_dictSet]
    simp

/-- Witness for C10: an unknown GUID resolves to `None`; of two meta files
declaring `abc123`, the second (last-scanned) one wins. -/
theorem c10_guid_index_witness :
    (∀ m ∈ [metaA, metaB], ¬ declaresGuid m "zzz") ∧
    resolveGuid (buildGuidIndex [metaA, metaB]) "zzz" = none ∧
    declaresGuid metaB "abc123" ∧
    (∀ m' ∈ ([] : List MetaFile), ¬ declaresGuid m' "abc123") ∧
    resolveGuid (buildGuidIndex [metaA, metaB]) "abc123" = some (assetPathOf metaB) :=
  ⟨by simp [declaresGuid, metaA, metaB],
   (c10_guid_index [metaA, metaB] "zzz").1 (by simp [declaresGuid, metaA, metaB]),
   ⟨rfl, rfl⟩,
   by simp,
   (c10_guid_index [metaA, metaB] "abc123").2 [metaA] metaB [] rfl ⟨rfl, rfl⟩ (by simp)⟩

/-- A block whose document failed to decode is a no-op for the parse state. -/
theorem parseBlocks_filter (blocks : List (String × Option UDoc)) (st : ParseState) :
    parseBlocks blocks st = parseBlocks (blocks.filter (fun b => b.2.isSome)) st := by
  induction blocks generalizing st with
  | nil => rfl
  | cons b rest ih =>
    cases b with
    | mk a od =>
      cases od with
      | none => simpa [parseBlocks, processBlock] using ih st
      | some d => simpa [parseBlocks] using ih (processBlock st (a, some d))

/-! ### Prefab-reference resolution (C7) -/

/-- `find_prefab_by_name` step 1: an exact key match wins immediately. -/
theorem findPrefabByName_exact (db : PrefabDatabase) (name p : String)
    (h : dictLookup db.prefabPaths name = some p) :
    findPrefabByName db name = some p := by
  simp only [findPrefabByName, h]

/-- `find_prefab_by_name` step 2: with no exact match, the
parenthesized-suffix strip is tried next. -/
theorem findPrefabByName_strip (db : PrefabDatabase) (name p : String)
    (h₁ : dictLookup db.prefabPaths name = none)
    (h₂ : dictLookup db.prefabPaths (stripDupSuffix name) = some p) :
    findPrefabByName db name = some p := by
  simp only [findPrefabByName, h₁, h₂]

/-- `find_prefab_by_name` step 3: with the first two lookups empty, the
result is exactly the lookup of the last-space-stripped base name. -/
theorem findPrefabByName_rsplit (db : PrefabDatabase) (name : String)
    (h₁ : dictLookup db.prefabPaths name = none)
    (h₂ : dictLookup db.prefabPaths (stripDupSuffix name) = none) :
    findPrefabByName db name = dictLookup db.prefabPaths (rsplitBase name) := by
  simp only [findPrefabByName, h₁, h₂]

/-- A truthy GUID that resolves wins; the name is never consulted. -/
theorem resolveOne_guid_first (db : PrefabDatabase) (st : ResolveState) (k : String)
    (go : GuiGameObject) (p : String) (hins : go.isPrefabInstance = true)
    (hg : optTruthy go.prefabSourceGuid = true)
    (hf : findPrefabByGuid db (go.prefabSourceGuid.getD "") = some p) :
    resolveOne db st (k, go) = { st with prefabRefs := dictSet st.prefabRefs k p } := by
  unfold resolveOne
  rw [if_neg (by simp [hins])]
  simp only [hg, if_true, hf]

/-- When the GUID path produced nothing, a truthy prefab name that resolves
through the three-step matcher is recorded. -/
theorem resolveOne_name_second (db : PrefabDatabase) (st : ResolveState) (k : String)
    (go : GuiGameObject) (p : String) (hins : go.isPrefabInstance = true)
    (hg : (if optTruthy go.prefabSourceGuid then
            findPrefabByGuid db (go.prefabSourceGuid.getD "") else none) = none)
    (hn : optTruthy go.prefabName = true)
    (hf : findPrefabByName db (go.prefabName.getD "") = some p) :
    resolveOne db st (k, go) = { st with prefabRefs := dictSet st.prefabRefs k p } := by
  unfold resolveOne
  rw [if_neg (by simp [hins])]
  simp only [hg, hn, if_true, hf]

/-- When both the GUID and the name fail, the reference dict is untouched and
`go.prefab_name or go.name or "Unknown"` is added to the missing set. -/
theorem resolveOne_both_fail (db : PrefabDatabase) (st : ResolveState) (k : String)
    (go : GuiGameObject) (hins : go.isPrefabInstance = true)
    (hg : (if optTruthy go.prefabSourceGuid then
            findPrefabByGuid db (go.prefabSourceGuid.getD "") else none) = none)
    (hn : (if optTruthy go.prefabName then
            findPrefabByName db (go.prefabName.getD "") else none) = none) :
    resolveOne db st (k, go) =
      { st with missingPrefabs := setAdd st.missingPrefabs (pyOrStr (go.prefabName.getD "") (pyOrStr go.name "Unknown")) } := by
  unfold resolveOne
  rw [if_neg (by simp [hins])]
  simp only [hg, hn]

/-- Set insertion keeps the missing list duplicate-free. -/
theorem setAdd_nodup {l : List String} {x : String} (h : l.Nodup) :
    (setAdd l x).Nodup := by
  unfold setAdd
  split
  · exact h
  · rename_i hx
    simp [List.nodup_append, h, hx]

/-- Each resolution step either leaves the missing set alone or inserts one
name through `setAdd`. -/
theorem resolveOne_missing_cases (db : PrefabDatabase) (st : ResolveState)
    (kv : String × GuiGameObject) :
    (resolveOne db st kv).missingPrefabs = st.missingPrefabs ∨
    ∃ nm, (resolveOne db st kv).missingPrefabs = setAdd st.missingPrefabs nm := by
  simp only [resolveOne]
  split
  · left; rfl
  · split
    · left; rfl
    · right; exact ⟨_, rfl⟩

/-- The full resolution pass preserves duplicate-freeness of the missing
set: each unresolved name is reported at most once. -/
theorem resolveFold_nodup (db : PrefabDatabase) :
    ∀ (gos : List (String × GuiGameObject)) (st : ResolveState),
      st.missingPrefabs.Nodup →
      (resolvePrefabReferences db gos st).missingPrefabs.Nodup := by
  intro gos
  induction gos with
  | nil => intro st h; exact h
  | cons kv rest ih =>
    intro st h
    have h' : (resolveOne db st kv).missingPrefabs.Nodup := by
      rcases resolveOne_missing_cases db st kv with he | ⟨nm, he⟩
      · rw [he]; exact h
      · rw [he]; exact setAdd_nodup h
    exact ih (resolveOne db st kv) h'

/-- Membership in a list survives an optional append on the right. -/
theorem mem_ite_append {α : Type} {a : α} {l e : List α} {c : Prop} [Decidable c]
    (h : a ∈ l) : a ∈ (if c then l ++ e else l) := by
  split
  · exact List.mem_append_left e h
  · exact h

/-- An unresolved node — in particular an unresolved prefab instance — is
emitted as a plain entity: the returned identifier is the next `Entity_[n]`,
and the entities dict maps it to an entity named after the node whose
component list holds a transform component with the given parent and the
threshold-gated converted transform data. -/
theorem createEntity_fallback (rng : ℕ → ℕ) (eulerFn : Quat → List ℚ)
    (assetsPath : String → String) (prefabRefs : List (String × String))
    (allGos : List (String × GuiGameObject)) (fuel : ℕ) (go : GuiGameObject)
    (parent : String) (st : GuiOut)
    (h : dictLookup prefabRefs go.fileId = none) :
    (createEntityRecursive rng eulerFn assetsPath prefabRefs allGos
        (fuel + 1) go parent st).1 = mkEntityId (st.gen.counter + 1) ∧
    ∃ e : Entity,
      dictLookup (createEntityRecursive rng eulerFn assetsPath prefabRefs allGos
          (fuel + 1) go parent st).2.entities (mkEntityId (st.gen.counter + 1))
        = some e ∧
      e.id = mkEntityId (st.gen.counter + 1) ∧
      e.name = go.name ∧
      ∃ cid, Component.transformComp cid parent
          (guiTransformData (eulerFn (convertToO3DECoordinates go.transform).1.rotation)
            (convertToO3DECoordinates go.transform).1
            (convertToO3DECoordinates go.transform).2) ∈ e.components := by
  simp only [createEntityRecursive, h]
  constructor
  · rfl
  · exact ⟨_,
      by rw [dictLookup_dictSet]; simp only [genEntityId]; rw [if_pos trivial],
      rfl, rfl, _,
      by
        split <;> split <;>
          first
            | exact List.mem_append_left _ (List.mem_append_left _
                (List.mem_cons_of_mem _ (List.mem_cons_of_mem _ (List.mem_cons_of_mem _
                  (List.mem_cons_of_mem _ (List.mem_cons_of_mem _ (List.mem_cons_of_mem _
                    (List.mem_cons_self _ _))))))))
            | exact List.mem_append_left _
                (List.mem_cons_of_mem _ (List.mem_cons_of_mem _ (List.mem_cons_of_mem _
                  (List.mem_cons_of_mem _ (List.mem_cons_of_mem _ (List.mem_cons_of_mem _
                    (List.mem_cons_self _ _)))))))
            | exact List.mem_cons_of_mem _ (List.mem_cons_of_mem _ (List.mem_cons_of_mem _
                (List.mem_cons_of_mem _ (List.mem_cons_of_mem _ (List.mem_cons_of_mem _
                  (List.mem_cons_self _ _))))))⟩

/-- C7: nested-prefab resolution order and graceful degradation.
(1)-(3): `find_prefab_by_name` tries the exact name, then the name with a
trailing parenthesized integer stripped, then the name with the last
space-delimited token stripped — first match wins.  (4): a truthy source
GUID that matches the database wins without consulting the name.  (5):
otherwise a truthy prefab name resolved through the three-step matcher wins.
(6): when both fail, the reference table is untouched and `prefab_name or
name or "Unknown"` is set-inserted into the missing report.  (7): the
missing report stays duplicate-free — each missing name appears exactly
once.  (8): an unresolved instance node is still emitted as a plain
`Entity_[n]` entity carrying the node's name and a transform component with
the converted transform — the file is not aborted. -/
theorem c7_prefab_resolution :
    (∀ (db : PrefabDatabase) (name p : String),
      dictLookup db.prefabPaths name = some p → findPrefabByName db name = some p) ∧
    (∀ (db : PrefabDatabase) (name p : String),
      dictLookup db.prefabPaths name = none →
      dictLookup db.prefabPaths (stripDupSuffix name) = some p →
      findPrefabByName db name = some p) ∧
    (∀ (db : PrefabDatabase) (name : String),
      dictLookup db.prefabPaths name = none →
      dictLookup db.prefabPaths (stripDupSuffix name) = none →
      findPrefabByName db name = dictLookup db.prefabPaths (rsplitBase name)) ∧
    (∀ (db : PrefabDatabase) (st : ResolveState) (k : String) (go : GuiGameObject) (p : String),
      go.isPrefabInstance = true → optTruthy go.prefabSourceGuid = true →
      findPrefabByGuid db (go.prefabSourceGuid.getD "") = some p →
      resolveOne db st (k, go) = { st with prefabRefs := dictSet st.prefabRefs k p }) ∧
    (∀ (db : PrefabDatabase) (st : ResolveState) (k : String) (go : GuiGameObject) (p : String),
      go.isPrefabInstance = true →
      (if optTruthy go.prefabSourceGuid then findPrefabByGuid db (go.prefabSourceGuid.getD "") else none) = none →
      optTruthy go.prefabName = true →
      findPrefabByName db (go.prefabName.getD "") = some p →
      resolveOne db st (k, go) = { st with prefabRefs := dictSet st.prefabRefs k p }) ∧
    (∀ (db : PrefabDatabase) (st : ResolveState) (k : String) (go : GuiGameObject),
      go.isPrefabInstance = true →
      (if optTruthy go.prefabSourceGuid then findPrefabByGuid db (go.prefabSourceGuid.getD "") else none) = none →
      (if optTruthy go.prefabName then findPrefabByName db (go.prefabName.getD "") else none) = none →
      resolveOne db st (k, go) =
        { st with missingPrefabs := setAdd st.missingPrefabs (pyOrStr (go.prefabName.getD "") (pyOrStr go.name "Unknown")) }) ∧
    (∀ (db : PrefabDatabase) (gos : List (String × GuiGameObject)) (st : ResolveState),
      st.missingPrefabs.Nodup → (resolvePrefabReferences db gos st).missingPrefabs.Nodup) ∧
    (∀ (rng : ℕ → ℕ) (eulerFn : Quat → List ℚ) (assetsPath : String → String)
       (prefabRefs : List (String × String)) (allGos : List (String × GuiGameObject))
       (fuel : ℕ) (go : GuiGameObject) (parent : String) (st : GuiOut),
      dictLookup prefabRefs go.fileId = none →
      (createEntityRecursive rng eulerFn assetsPath prefabRefs allGos (fuel + 1) go parent st).1 = mkEntityId (st.gen.counter + 1) ∧
      ∃ e : Entity,
        dictLookup (createEntityRecursive rng eulerFn assetsPath prefabRefs allGos (fuel + 1) go parent st).2.entities (mkEntityId (st.gen.counter + 1)) = some e ∧
        e.id = mkEntityId (st.gen.counter + 1) ∧ e.name = go.name ∧
        ∃ cid, Component.transformComp cid parent (guiTransformData (eulerFn (convertToO3DECoordinates go.transform).1.rotation) (convertToO3DECoordinates go.transform).1 (convertToO3DECoordinates go.transform).2) ∈ e.components) :=
  ⟨findPrefabByName_exact, findPrefabByName_strip, findPrefabByName_rsplit,
   resolveOne_guid_first, resolveOne_name_second, resolveOne_both_fail,
   resolveFold_nodup, createEntity_fallback⟩

/-- Witness for C7: on a concrete two-prefab database, `"Crate"` matches
exactly, `"Rock (1)"` matches after the parenthesized strip, `"Crate 2"`
falls through to the last-space strip; a GUID-carrying node resolves by
GUID, a name-only node by name; a node matching nothing is reported once in
the missing set and still yields a plain `Entity_[1000001]` entity. -/
theorem c7_prefab_resolution_witness :
    dictLookup c7db.prefabPaths "Crate" = some "Prefabs/Crate.prefab" ∧
    findPrefabByName c7db "Crate" = some "Prefabs/Crate.prefab" ∧
    dictLookup c7db.prefabPaths "Rock (1)" = none ∧
    dictLookup c7db.prefabPaths (stripDupSuffix "Rock (1)") = some "Prefabs/Rock.prefab" ∧
    findPrefabByName c7db "Rock (1)" = some "Prefabs/Rock.prefab" ∧
    findPrefabByName c7db "Crate 2" = dictLookup c7db.prefabPaths (rsplitBase "Crate 2") ∧
    resolveOne c7db c7st0 ("42", c7goGuid) = { c7st0 with prefabRefs := dictSet c7st0.prefabRefs "42" "Prefabs/Crate.prefab" } ∧
    resolveOne c7db c7st0 ("43", c7goName) = { c7st0 with prefabRefs := dictSet c7st0.prefabRefs "43" "Prefabs/Rock.prefab" } ∧
    resolveOne c7db c7st0 ("900", c7goMissing) = { c7st0 with missingPrefabs := setAdd c7st0.missingPrefabs (pyOrStr (c7goMissing.prefabName.getD "") (pyOrStr c7goMissing.name "Unknown")) } ∧
    (resolvePrefabReferences c7db [("900", c7goMissing)] c7st0).missingPrefabs.Nodup ∧
    ((createEntityRecursive rngDistinct zeroEuler idPath [] [] (0 + 1) c7goMissing "Entity_[1000000]" c7out0).1 = mkEntityId (c7out0.gen.counter + 1) ∧
     ∃ e : Entity,
       dictLookup (createEntityRecursive rngDistinct zeroEuler idPath [] [] (0 + 1) c7goMissing "Entity_[1000000]" c7out0).2.entities (mkEntityId (c7out0.gen.counter + 1)) = some e ∧
       e.id = mkEntityId (c7out0.gen.counter + 1) ∧ e.name = c7goMissing.name ∧
       ∃ cid, Component.transformComp cid "Entity_[1000000]" (guiTransformData (zeroEuler (convertToO3DECoordinates c7goMissing.transform).1.rotation) (convertToO3DECoordinates c7goMissing.transform).1 (convertToO3DECoordinates c7goMissing.transform).2) ∈ e.components) :=
  ⟨by decide,
   c7_prefab_resolution.1 c7db "Crate" "Prefabs/Crate.prefab" (by decide),
   by decide,
   by decide,
   c7_prefab_resolution.2.1 c7db "Rock (1)" "Prefabs/Rock.prefab" (by decide) (by decide),
   c7_prefab_resolution.2.2.1 c7db "Crate 2" (by decide) (by decide),
   c7_prefab_resolution.2.2.2.1 c7db c7st0 "42" c7goGuid "Prefabs/Crate.prefab" rfl (by decide) (by decide),
   c7_prefab_resolution.2.2.2.2.1 c7db c7st0 "43" c7goName "Prefabs/Rock.prefab" rfl (by decide) rfl (by decide),
   c7_prefab_resolution.2.2.2.2.2.1 c7db c7st0 "900" c7goMissing rfl (by decide) (by decide),
   c7_prefab_resolution.2.2.2.2.2.2.1 c7db [("900", c7goMissing)] c7st0 (by simp [c7st0]),
   c7_prefab_resolution.2.2.2.2.2.2.2 rngDistinct zeroEuler idPath [] [] 0 c7goMissing "Entity_[1000000]" c7out0 rfl⟩

/-- C8: an anchored block whose YAML decode fails (`none`) is skipped and the
remaining blocks still run: deleting the failed block from the list leaves the
final parse state unchanged, and in general the parse pass computes exactly
what it computes on the successfully-decoded blocks alone — no per-record
failure escapes the loop or suppresses later records. -/
theorem c8_parse_skip (xs ys : List (String × Option UDoc)) (a : String)
    (st : ParseState) :
    parseBlocks (xs ++ (a, none) :: ys) st = parseBlocks (xs ++ ys) st ∧
    (∀ blocks : List (String × Option UDoc),
      parseBlocks blocks st = parseBlocks (blocks.filter (fun b => b.2.isSome)) st) := by
  constructor
  · simp [parseBlocks, List.foldl_append, processBlock]
  · intro blocks
    exact parseBlocks_filter blocks st

/-! ### Identifier generation (C9) -/

/-- C9 counterexample: component `Id`s are `random.randint` draws, not
counters.  Two valid random streams (both inside the `randint(10^15,
10^16-1)` range) fed the same input and the same counter state produce
entity bodies that differ — in the component `Id` fields, which the claim
does not exclude (they are not counters); and under the constant stream the
component `Id`s inside one single run collide, so the freshly assigned
identifiers are not non-colliding within one run either. -/
theorem c9_counterexample :
    (∀ i < 8, 1000000000000000 ≤ rngDistinct i ∧ rngDistinct i ≤ 9999999999999999) ∧
    (∀ i < 8, 1000000000000000 ≤ rngConst i ∧ rngConst i ≤ 9999999999999999) ∧
    (makeBareEntity rngDistinct "Entity_[1000002]" "Crate_Collider_1" "Entity_[1000001]" ⟨1000002, 0⟩).1
      ≠ (makeBareEntity rngConst "Entity_[1000002]" "Crate_Collider_1" "Entity_[1000001]" ⟨1000002, 0⟩).1 ∧
    ¬ (((makeBareEntity rngConst "Entity_[1000002]" "Crate_Collider_1" "Entity_[1000001]" ⟨1000002, 0⟩).1.components.map componentId).Nodup) := by
  refine ⟨by decide, by decide, by decide, by decide⟩

/-- C9 (amended): what the id generation does guarantee.  (1) The entity
body produced by the bare-entity builder is independent of the random
stream once the freshly drawn identifiers are erased, and the deterministic
entity counter advances identically — so two runs on the same input agree
on everything except the fresh ids.  (2) `_generate_entity_id` increments
the counter by exactly one and renders it, so counter-derived identifiers
strictly increase within one run.  (3)/(4) Distinct counter values render
to distinct `Entity_[n]` / `Instance_[n]` identifiers, so the
counter-derived identifiers never collide within one run. -/
theorem c9_id_generation :
    (∀ (rng₁ rng₂ : ℕ → ℕ) (entityId name parentId : String) (s : GenState),
      eraseEntity (makeBareEntity rng₁ entityId name parentId s).1
        = eraseEntity (makeBareEntity rng₂ entityId name parentId s).1 ∧
      (makeBareEntity rng₁ entityId name parentId s).2.counter
        = (makeBareEntity rng₂ entityId name parentId s).2.counter) ∧
    (∀ s : GenState, (genEntityId s).2.counter = s.counter + 1 ∧
      (genEntityId s).1 = mkEntityId (s.counter + 1)) ∧
    (∀ m n : ℕ, m ≠ n → mkEntityId m ≠ mkEntityId n) ∧
    (∀ m n : ℕ, m ≠ n → mkInstanceId m ≠ mkInstanceId n) := by
  refine ⟨?_, ?_, ?_, ?_⟩
  · intro rng₁ rng₂ entityId name parentId s
    exact ⟨rfl, rfl⟩
  · intro s
    exact ⟨rfl, rfl⟩
  · intro m n hne h
    exact hne (mkEntityId_injective h)
  · intro m n hne h
    exact hne (mkInstanceId_injective h)

/-- Witness for C9: the erased bare-entity bodies of a distinct-valued and a
constant random stream coincide; the counter advances `1000000 → 1000001`;
and the rendered identifiers of two adjacent counter values differ. -/
theorem c9_id_generation_witness :
    eraseEntity (makeBareEntity rngDistinct "E" "N" "P" ⟨5, 0⟩).1
      = eraseEntity (makeBareEntity rngConst "E" "N" "P" ⟨5, 0⟩).1 ∧
    (genEntityId ⟨1000000, 0⟩).2.counter = 1000000 + 1 ∧
    (genEntityId ⟨1000000, 0⟩).1 = mkEntityId (1000000 + 1) ∧
    (1000001 : ℕ) ≠ 1000002 ∧
    mkEntityId 1000001 ≠ mkEntityId 1000002 ∧
    (0 : ℕ) ≠ 1 ∧
    mkInstanceId 0 ≠ mkInstanceId 1 :=
  ⟨(c9_id_generation.1 rngDistinct rngConst "E" "N" "P" ⟨5, 0⟩).1,
   (c9_id_generation.2.1 ⟨1000000, 0⟩).1,
   (c9_id_generation.2.1 ⟨1000000, 0⟩).2,
   by decide,
   c9_id_generation.2.2.1 1000001 1000002 (by decide),
   by decide,
   c9_id_generation.2.2.2 0 1 (by decide)⟩

end U2O
